import Mathlib

/-!
Verification development for the Proton session client (`proton/api.py`).

The Python source is shallowly embedded as pure Lean functions over an
explicit `SessionState`.  Network transport (`requests`) and DNS-over-HTTPS
results are supplied as oracles (`Net`, `DnsEnv`), and every request issued
is collected in a trace so that "no network I/O" statements are expressible.
Python values appearing in JSON bodies, headers and the session-data dict
are modelled by the `JVal` type; Python `None` is `JVal.null`.
-/

namespace Proton

/-- Python/JSON values as stored in request bodies, headers and the
session-data dictionary.  Python `None` is modelled by `null`. -/
inductive JVal where
  | null : JVal
  | bool (b : Bool) : JVal
  | num (n : Int) : JVal
  | str (s : String) : JVal
  | arr (xs : List JVal) : JVal
  | obj (fields : List (String × JVal)) : JVal

/-- Python exceptions raised by dictionary subscription and similar
operations inside the embedded code. -/
inductive PyErr where
  | keyError : PyErr
  | typeError : PyErr
deriving DecidableEq, Repr

/-- The error taxonomy of the client, following `proton/exceptions.py` and
the plain Python exceptions raised in `api.py`.  `policyNotConfigured` is
the `RuntimeError` raised when alternative routing was never configured. -/
inductive ApiError where
  | policyNotConfigured : ApiError
  | badMethod : ApiError
  | newConnectionError : ApiError
  | connectionTimeOutError : ApiError
  | tlsPinningError : ApiError
  | unknownConnectionError : ApiError
  | networkError : ApiError
  | protonAPIError (body : JVal) : ApiError
  | invalidModulus : ApiError
  | invalidChallenge : ApiError
  | invalidPassword : ApiError
  | invalidServerProof : ApiError
  | keyError : ApiError
  | typeError : ApiError
  | unboundLocalError : ApiError
  | binasciiError : ApiError

/-- Conversion of dictionary-access exceptions into the common error type. -/
def pyErr : PyErr → ApiError
  | .keyError => .keyError
  | .typeError => .typeError

/-- Dictionary update, replace-in-place or append (Python dict insertion
order semantics, as used for headers and the session-data dict; the
modelled dicts are duplicate-free, so replacing the first occurrence is
the dict update). -/
def hset : List (String × JVal) → String → JVal → List (String × JVal)
  | [], k, v => [(k, v)]
  | a :: t, k, v => if a.1 = k then (k, v) :: t else a :: hset t k v

/-- Dictionary lookup. -/
def hGet : List (String × JVal) → String → Option JVal
  | [], _ => none
  | a :: t, k => if a.1 = k then some a.2 else hGet t k

/-- Dictionary key removal (total, models `dict.pop(k)` with the key
silently absent; the call sites that model a bare `del` guard presence
explicitly). -/
def hdel : List (String × JVal) → String → List (String × JVal)
  | [], _ => []
  | a :: t, k => if a.1 = k then hdel t k else a :: hdel t k

/-- Python subscription `v[k]`: `KeyError` on a dict without the key,
`TypeError` on non-dict values. -/
def jGet : JVal → String → Except PyErr JVal
  | .obj fs, k =>
    match fs.find? (fun p => p.1 = k) with
    | some p => .ok p.2
    | none => .error .keyError
  | _, _ => .error .typeError

/-- Python string value extraction; non-strings are modelled as a
`TypeError` at the point the value is used as a string. -/
def jvalStr : JVal → Except PyErr String
  | .str s => .ok s
  | _ => .error .typeError

/-- Python truthiness of a value, as applied by `bool(newvalue)` in the
alternative-routing setter. -/
def py_truthy : JVal → Bool
  | .null => false
  | .bool b => b
  | .num n => n ≠ 0
  | .str s => s ≠ ""
  | .arr xs => !xs.isEmpty
  | .obj fs => !fs.isEmpty

/-- Python `str.strip('"')`: removes all leading and trailing double-quote
characters. -/
def strip_quotes (s : String) : String :=
  let l := (s.toList.dropWhile (fun c => c = '"')).reverse
  String.mk ((l.dropWhile (fun c => c = '"')).reverse)

/-- Python `str.lower()`, character-wise (the inputs in this code are
ASCII: HTTP method names and hex fingerprints). -/
def py_lower (s : String) : String :=
  String.mk (s.toList.map Char.toLower)

/-- Python `str.strip()` with no argument: remove leading and trailing
whitespace. -/
def py_strip (s : String) : String :=
  let l := (s.toList.dropWhile Char.isWhitespace).reverse
  String.mk ((l.dropWhile Char.isWhitespace).reverse)

/-- Helper for `py_split`: walk the characters, accumulating the current
word reversed. -/
def py_split_aux : List Char → List Char → List String
  | [], acc => if acc.isEmpty then [] else [String.mk acc.reverse]
  | c :: cs, acc =>
    if c.isWhitespace then
      if acc.isEmpty then py_split_aux cs []
      else String.mk acc.reverse :: py_split_aux cs []
    else py_split_aux cs (c :: acc)

/-- Python `str.split()` with no argument: split on whitespace runs,
dropping empty pieces. -/
def py_split (s : String) : List String :=
  py_split_aux s.toList []

/-- An HTTP response as seen through `requests`.  `body` is the result of
attempting `response.json()`: `some v` when the body is valid JSON,
`none` when decoding raises `json.decoder.JSONDecodeError`. -/
structure HttpResponse where
  status_code : Int
  reason : String
  resp_headers : List (String × String)
  body : Option JVal

/-- Truthiness of a `requests.Response`: `Response.__bool__` is `self.ok`,
i.e. `status_code < 400`.  This is what `if not response:` tests in
`Session.__try_with_alt_routing`. -/
def response_truthy (r : HttpResponse) : Bool :=
  r.status_code < 400

/-- Outcome of one transport-level send, after `Session.__make_request`
has classified the exceptions of `requests`: `connectionError` stands for
`requests.exceptions.ConnectionError` (wrapped into `NewConnectionError`),
`timeout` for `requests.exceptions.Timeout` (`ConnectionTimeOutError`),
`tlsPinningError` for `TLSPinningError`, and `otherError` for any other
exception (wrapped into `UnknownConnectionError`). -/
inductive TransportResult where
  | success (r : HttpResponse) : TransportResult
  | connectionError : TransportResult
  | timeout : TransportResult
  | tlsPinningError : TransportResult
  | otherError : TransportResult

/-- Is the transport outcome a response (no exception raised)? -/
def transport_success : TransportResult → Bool
  | .success _ => true
  | _ => false

/-- The request a transport call actually sends: final URL (base plus
endpoint), resolved method, the session headers merged with the per-call
additional headers, body, URL parameters and the `verify` flag. -/
structure Request where
  method : String
  url : String
  headers : List (String × JVal)
  jsondata : Option JVal
  params : Option (List (String × String))
  verify : Bool

/-- The `request_params` dictionary built by `api_request`: base URL and
endpoint still separate (`__make_request` concatenates them), additional
headers not yet merged with the session headers. -/
structure ReqParams where
  method : String
  url : String
  endpoint : String
  addh : Option (List (String × JVal))
  jsondata : Option JVal
  params : Option (List (String × String))
  verify : Bool

/-- Session-header / per-request-header merge performed by `requests`
when a request is sent: per-request headers override session headers. -/
def merge_headers (session_headers : List (String × JVal))
    (addh : Option (List (String × JVal))) : List (String × JVal) :=
  (addh.getD []).foldl (fun hs p => hset hs p.1 p.2) session_headers

/-- Build the request actually sent for a `request_params` dictionary,
given the session headers current at send time (`__make_request` pops the
endpoint and concatenates it onto the URL). -/
def mk_final (session_headers : List (String × JVal)) (p : ReqParams) : Request :=
  { method := p.method, url := p.url ++ p.endpoint,
    headers := merge_headers session_headers p.addh,
    jsondata := p.jsondata, params := p.params, verify := p.verify }

/-- The network oracle: what the transport returns for each request. -/
def Net : Type := Request → TransportResult

/-- A DoH response body parsed by `dns.message.from_wire`: the answer
section, one list of already-stringified TXT values per rrset. -/
structure DnsResponse where
  answer : List (List String)

/-- The DoH environment: for every configured encoded name (outer list,
iteration order of `ENCODED_URLS`), the result of querying each DoH
provider (inner list, order of `DNS_HOSTS`); `none` models a provider
whose query failed, returned 404 or produced an empty body, which
`__query_for_dns_data` reports as a missing value. -/
def DnsEnv : Type := List (List (Option DnsResponse))

/-- The state of a `Session` object.  `alt_route` models the Route Cache
(`MetadataBackend`, not under `src/`): the currently stored, unexpired
alternative URL, or `none`. -/
structure SessionState where
  api_url : String
  appversion : String
  user_agent : String
  clientsecret : Option String
  tls_pinning_enabled : Bool
  headers : List (String × JVal)
  cookies : List (String × String)
  session_data : List (String × JVal)
  allow_alternative_routes : Option Bool
  force_skip_alternative_routing : Bool
  captcha_token : Option JVal
  alt_route : Option String

/-- Modelled from the spec: the Route Cache contract `try_original_url`
of the metadata backend, whose code is not under `src/`.  Per spec §4.4 it
answers `true` (use the original URL) iff `force_skip` is set, or
`allow_alt` is false, or there is no unexpired alternative; expiry is
folded into `alt_route` being `none`. -/
def try_original_url (allow_alt : Bool) (force_skip : Bool)
    (alt_route : Option String) : Bool :=
  force_skip || !allow_alt || alt_route.isNone

/-- Modelled from the spec: the Route Cache `get_alternative_url`, which
returns the stored alternative URL or empty (spec §4.4). -/
def get_alternative_url (alt_route : Option String) : String :=
  alt_route.getD ""

/-- Modelled from the spec: the Route Cache `store_alternative_route`,
which records the given URL as the active alternative (spec §4.4). -/
def store_alternative_route (st : SessionState) (url : String) : SessionState :=
  { st with alt_route := some url }

/-- The `_session_data.get(key, None)` accessor pattern: a stored JSON
`null` and a missing key are both Python `None`. -/
def sd_get (st : SessionState) (k : String) : Option JVal :=
  match hGet st.session_data k with
  | some .null => none
  | some v => some v
  | none => none

/-- The `UID` property. -/
def Session.UID (st : SessionState) : Option JVal := sd_get st "UID"

/-- The `AccessToken` property. -/
def Session.AccessToken (st : SessionState) : Option JVal := sd_get st "AccessToken"

/-- The `RefreshToken` property. -/
def Session.RefreshToken (st : SessionState) : Option JVal := sd_get st "RefreshToken"

/-- The `Scope` property: `_session_data.get("Scope", [])`. -/
def Session.Scope (st : SessionState) : JVal :=
  (hGet st.session_data "Scope").getD (.arr [])

/-- Method resolution of `api_request` (lines 197-214): with no explicit
method, GET when there is no body and POST otherwise; an explicit method
is lowercased and looked up among get/post/put/delete/patch, anything
else yields `None` and then `ValueError("Unknown method")`. -/
def resolve_method (method : Option String) (jsondata : Option JVal) : Option String :=
  match method with
  | none => if jsondata.isNone then some "get" else some "post"
  | some m =>
    let l := py_lower m
    if l = "get" ∨ l = "post" ∨ l = "put" ∨ l = "delete" ∨ l = "patch" then
      some l
    else none

/-- What `api_request` returns to the caller: the decoded JSON value
(`response` after reassignment by `response.json()`), or the raw
response object when the body was not JSON and the status was 200. -/
inductive ApiReturn where
  | json (v : JVal) : ApiReturn
  | raw (r : HttpResponse) : ApiReturn

/-- Does the envelope code mean success (`Code in [1000, 1001]`)? -/
def code_success : JVal → Bool
  | .num 1000 => true
  | .num 1001 => true
  | _ => false

/-- Python `==` between an envelope code value and an int literal. -/
def code_is (v : JVal) (n : Int) : Bool :=
  match v with
  | .num m => m = n
  | _ => false

/-- The response headers as embedded in a `ProtonAPIError` body. -/
def responseHeadersJ (hs : List (String × String)) : JVal :=
  .obj (hs.map (fun p => (p.1, .str p.2)))

/-- The `human_verification_token` deleter: pops both header keys,
silently if absent. -/
def del_human_verification_token (st : SessionState) : SessionState :=
  let hs := hdel st.headers "X-PM-Human-Verification-Token-Type"
  { st with headers := hdel hs "X-PM-Human-Verification-Token" }

/-- The application-envelope check of `api_request` (lines 287-297): for a
JSON body `v`, `v["Code"]` is inspected; a missing key raises `KeyError`;
on a non-dict value the `TypeError` is swallowed when the HTTP status is
200 (the decoded value is returned) and re-raised otherwise.  Code 9001
stores the human-verification token before raising, 12087 deletes the
cached token headers before raising; every non-1000/1001 code raises
`ProtonAPIError` with the envelope. -/
def envelope_check (st : SessionState) (status : Int) (v : JVal) :
    SessionState × Except ApiError ApiReturn :=
  match jGet v "Code" with
  | .error .keyError => (st, .error .keyError)
  | .error .typeError =>
    if status ≠ 200 then (st, .error .typeError) else (st, .ok (.json v))
  | .ok c =>
    if code_success c then (st, .ok (.json v))
    else if code_is c 9001 then
      match (jGet v "Details").bind (fun d => jGet d "HumanVerificationToken") with
      | .error .keyError => (st, .error .keyError)
      | .error .typeError =>
        if status ≠ 200 then (st, .error .typeError) else (st, .ok (.json v))
      | .ok tok => ({ st with captcha_token := some tok }, .error (.protonAPIError v))
    else if code_is c 12087 then
      (del_human_verification_token st, .error (.protonAPIError v))
    else (st, .error (.protonAPIError v))

/-- Response handling of `api_request` (lines 263-299): read the status
code, attempt JSON decoding; a non-JSON body with non-200 status raises
`ProtonAPIError` built from status, reason and headers; a non-JSON body
with status 200 falls through the swallowed `TypeError` and returns the
raw response object; a JSON body goes through the envelope check.  The
`none` input models the fragile branch in which the transport failed but
the API was judged reachable, leaving `response` unbound
(`UnboundLocalError` at `response.json()`). -/
def handle_response (st : SessionState) (response? : Option HttpResponse) :
    SessionState × Except ApiError ApiReturn :=
  match response? with
  | none => (st, .error .unboundLocalError)
  | some resp =>
    match resp.body with
    | none =>
      if resp.status_code ≠ 200 then
        (st, .error (.protonAPIError (.obj
          [("Code", .num resp.status_code),
           ("Error", .str resp.reason),
           ("Headers", responseHeadersJ resp.resp_headers)])))
      else (st, .ok (.raw resp))
    | some v => envelope_check st resp.status_code v

/-- `Session.__extract_dns_answer` (lines 588-610): iterate over the
answer sections of the parsed DNS message; the loop body REASSIGNS
`routes = set(...)` on every rrset, so the result is the quote-stripped
strings of the last rrset (or empty when there is no answer).  The Python
set is modelled as a list in iteration order. -/
def extract_dns_answer (r : DnsResponse) : List String :=
  r.answer.foldl (fun _ rrset => rrset.map strip_quotes) []

/-- The collected, non-failed DoH provider responses for one encoded
name (the filtered `dns_hosts_response` list). -/
def collect_responses (block : List (Option DnsResponse)) : List DnsResponse :=
  block.filterMap id

/-- The outer loop of `Session.get_alternative_routes_from_dns` (lines
509-535) over the encoded names, carrying the `routes` variable: names
with no collected responses are skipped; otherwise the inner loop
reassigns `routes` once per collected response (so the last response
wins) and the outer loop breaks only if the resulting `routes` is
non-empty. -/
def dns_routes_loop : List (List (Option DnsResponse)) → List String → List String
  | [], routes => routes
  | block :: rest, routes =>
    let collected := collect_responses block
    if collected.length = 0 then dns_routes_loop rest routes
    else
      let routes2 := collected.foldl (fun _ r => extract_dns_answer r) routes
      if routes2.length > 0 then routes2 else dns_routes_loop rest routes2

/-- `Session.get_alternative_routes_from_dns` with the per-name,
per-provider DoH results supplied by the environment (the concurrent
fan-out and wire encoding are external to this model); `routes` starts
empty and the callback-less return is modelled. -/
def get_alternative_routes_from_dns (dnsEnv : DnsEnv) : List String :=
  dns_routes_loop dnsEnv []

/-- The request sent when retrying against an alternative route: same
`request_params` with `verify = False` and the URL replaced by
`https://<route>`. -/
def alt_request (session_headers : List (String × JVal)) (p : ReqParams)
    (route : String) : Request :=
  mk_final session_headers { p with url := "https://" ++ route, verify := false }

/-- The host loop of `Session.__try_with_alt_routing` (lines 307-329):
replay the request against each route; any exception is logged and the
loop continues; the first replay that returns stores the route in the
Route Cache and breaks.  After the loop, `if not response:` raises
`NetworkError` — this uses `requests.Response` truthiness, so a stored
route with a non-ok (status ≥ 400) response still ends in `NetworkError`.
Returns the final state, the requests issued, and the outcome. -/
def alt_loop (net : Net) (p : ReqParams) (st : SessionState) :
    List String → SessionState × List Request × Except ApiError HttpResponse
  | [] => (st, [], .error .networkError)
  | route :: rest =>
    let fr := alt_request st.headers p route
    match net fr with
    | .success r =>
      let st' := store_alternative_route st ("https://" ++ route)
      if response_truthy r then (st', [fr], .ok r)
      else (st', [fr], .error .networkError)
    | _ =>
      let res := alt_loop net p st rest
      (res.1, fr :: res.2.1, res.2.2)

/-- `Session.__try_with_alt_routing` (lines 301-329): resolve the
alternative routes via DoH, set `verify` to false, and run the host
loop. -/
def try_with_alt_routing (net : Net) (dnsEnv : DnsEnv) (st : SessionState)
    (p : ReqParams) : SessionState × List Request × Except ApiError HttpResponse :=
  let routes := get_alternative_routes_from_dns dnsEnv
  alt_loop net { p with verify := false } st routes

/-- Map a transport-level failure to the exception `api_request`
re-raises for it. -/
def transport_error : TransportResult → ApiError
  | .connectionError => .newConnectionError
  | .timeout => .connectionTimeOutError
  | .tlsPinningError => .tlsPinningError
  | _ => .unknownConnectionError

/-- `api_request` with `_skip_alt_routing_for_api_check=True` (the flag
`_is_api_reacheable` passes): the alt-routing detour is disabled, so a
transport failure is re-raised immediately; everything else is as in the
full `api_request`.  Returns the final state, the trace of requests sent,
and the outcome. -/
def api_request_skip (net : Net) (st : SessionState) (endpoint : String)
    (jsondata : Option JVal) (addh : Option (List (String × JVal)))
    (method : Option String) (params : Option (List (String × String))) :
    SessionState × List Request × Except ApiError ApiReturn :=
  match st.allow_alternative_routes with
  | none => (st, [], .error .policyNotConfigured)
  | some b =>
    match resolve_method method jsondata with
    | none => (st, [], .error .badMethod)
    | some m =>
      let useOrig := try_original_url b st.force_skip_alternative_routing st.alt_route
      let p : ReqParams :=
        ⟨m, if useOrig then st.api_url else get_alternative_url st.alt_route,
         endpoint, addh, jsondata, params, useOrig⟩
      let fr := mk_final st.headers p
      match net fr with
      | .success r =>
        let res := handle_response st (some r)
        (res.1, [fr], res.2)
      | .otherError => (st, [fr], .error .unknownConnectionError)
      | .connectionError => (st, [fr], .error .newConnectionError)
      | .timeout => (st, [fr], .error .connectionTimeOutError)
      | .tlsPinningError => (st, [fr], .error .tlsPinningError)

/-- `Session._is_api_reacheable` (lines 349-356): ping `/tests/ping` with
the alt-skip flag; the three transport errors yield `False`, success
yields `True`, and any other exception (for example a `ProtonAPIError`
from the ping response) propagates. -/
def is_api_reacheable (net : Net) (st : SessionState) :
    SessionState × List Request × Except ApiError Bool :=
  let res := api_request_skip net st "/tests/ping" none none none none
  match res.2.2 with
  | .ok _ => (res.1, res.2.1, .ok true)
  | .error .newConnectionError => (res.1, res.2.1, .ok false)
  | .error .connectionTimeOutError => (res.1, res.2.1, .ok false)
  | .error .tlsPinningError => (res.1, res.2.1, .ok false)
  | .error e => (res.1, res.2.1, .error e)

/-- The transport-failure tail of `api_request` (lines 254-299 for the
exception path): re-raise immediately when alternative routing is
disallowed or force-skipped; otherwise probe reachability (whose own
non-transport failures propagate), fall through with `response` unbound
when the API is judged reachable, and run the alt-routing detour when it
is not. -/
def api_detour (net : Net) (dnsEnv : DnsEnv) (st : SessionState) (p : ReqParams)
    (fr : Request) (e : ApiError) (b : Bool) :
    SessionState × List Request × Except ApiError ApiReturn :=
  if !b || st.force_skip_alternative_routing then (st, [fr], .error e)
  else
    match is_api_reacheable net st with
    | (st1, tr1, .error e1) => (st1, fr :: tr1, .error e1)
    | (st1, tr1, .ok true) =>
      let res := handle_response st1 none
      (res.1, fr :: tr1, res.2)
    | (st1, tr1, .ok false) =>
      match try_with_alt_routing net dnsEnv st1 p with
      | (st2, tr2, .error e2) => (st2, fr :: (tr1 ++ tr2), .error e2)
      | (st2, tr2, .ok r) =>
        let res := handle_response st2 (some r)
        (res.1, fr :: (tr1 ++ tr2), res.2)

/-- `Session.api_request` (lines 171-299) with the skip flag false: the
precondition on the alternative-routing policy, method resolution, URL
selection through the Route Cache, one transport attempt, the
alt-routing detour on transport failure (guarded by the policy, the
force-skip override and the reachability probe), and response
handling.  When the transport failed but the API was judged reachable
the code falls through with `response` unbound. -/
def api_request (net : Net) (dnsEnv : DnsEnv) (st : SessionState) (endpoint : String)
    (jsondata : Option JVal) (addh : Option (List (String × JVal)))
    (method : Option String) (params : Option (List (String × String))) :
    SessionState × List Request × Except ApiError ApiReturn :=
  match st.allow_alternative_routes with
  | none => (st, [], .error .policyNotConfigured)
  | some b =>
    match resolve_method method jsondata with
    | none => (st, [], .error .badMethod)
    | some m =>
      let useOrig := try_original_url b st.force_skip_alternative_routing st.alt_route
      let p : ReqParams :=
        ⟨m, if useOrig then st.api_url else get_alternative_url st.alt_route,
         endpoint, addh, jsondata, params, useOrig⟩
      let fr := mk_final st.headers p
      match net fr with
      | .success r =>
        let res := handle_response st (some r)
        (res.1, [fr], res.2)
      | .otherError => (st, [fr], .error .unknownConnectionError)
      | tres => api_detour net dnsEnv st p fr (transport_error tres) b

/-- `Session.__init__` (lines 114-169): a fresh session with the
`x-pm-appversion` and `User-Agent` headers set (the default headers of
`requests.Session` are outside the model), empty cookies, empty session
data and the alternative-routing policy unset. -/
def session_new (api_url appversion user_agent : String) (tls_pinning : Bool)
    (clientsecret : Option String) : SessionState :=
  { api_url := api_url, appversion := appversion, user_agent := user_agent,
    clientsecret := clientsecret, tls_pinning_enabled := tls_pinning,
    headers := [("x-pm-appversion", .str appversion), ("User-Agent", .str user_agent)],
    cookies := [], session_data := [],
    allow_alternative_routes := none, force_skip_alternative_routing := false,
    captcha_token := none, alt_route := none }

/-- The serialized blob exchanged by `dump()` and `load()`. -/
structure SessionDump where
  api_url : String
  appversion : String
  user_agent : String
  cookies : List (String × String)
  session_data : List (String × JVal)

/-- `Session.dump` (lines 97-112). -/
def Session.dump (st : SessionState) : SessionDump :=
  { api_url := st.api_url, appversion := st.appversion,
    user_agent := st.user_agent, cookies := st.cookies,
    session_data := st.session_data }

/-- The session `load` rebuilds before re-applying auth headers: a
fresh construction with the dump's identifying strings, plus the dump's
cookies and session data. -/
def loaded_base (dump : SessionDump) (tls_pinning : Bool) : SessionState :=
  { session_new dump.api_url dump.appversion dump.user_agent tls_pinning none with
    cookies := dump.cookies, session_data := dump.session_data }

/-- `Session.load` (lines 55-95): rebuild a session from a dump, restore
cookies and session data, and when a UID is present re-apply the
`x-pm-uid` and `Authorization: Bearer <AccessToken>` headers
(`"Bearer " + self.AccessToken` raises `TypeError` when the access token
is missing or not a string). -/
def Session.load (dump : SessionDump) (tls_pinning : Bool) :
    Except ApiError SessionState :=
  let s1 := loaded_base dump tls_pinning
  match Session.UID s1 with
  | none => .ok s1
  | some uid =>
    match Session.AccessToken s1 with
    | some (.str a) =>
      let hs := hset s1.headers "x-pm-uid" uid
      .ok { s1 with headers := hset hs "Authorization" (.str ("Bearer " ++ a)) }
    | _ => .error .typeError

/-- `Session.logout` (lines 453-459): a no-op without session data;
otherwise DELETE `/auth` — an exception there PROPAGATES, leaving the
headers and the session data in place — and only on success delete the
`Authorization` and `x-pm-uid` headers (a bare `del` raises `KeyError`
when the header is absent) and clear the session data. -/
def logout (net : Net) (dnsEnv : DnsEnv) (st : SessionState) :
    SessionState × List Request × Except ApiError Unit :=
  if st.session_data.isEmpty then (st, [], .ok ())
  else
    match api_request net dnsEnv st "/auth" none none (some "DELETE") none with
    | (st1, tr, .error e) => (st1, tr, .error e)
    | (st1, tr, .ok _) =>
      if (hGet st1.headers "Authorization").isSome then
        let h1 := hdel st1.headers "Authorization"
        if (hGet h1 "x-pm-uid").isSome then
          ({ st1 with headers := hdel h1 "x-pm-uid", session_data := [] }, tr, .ok ())
        else ({ st1 with headers := h1 }, tr, .error .keyError)
      else (st1, tr, .error .keyError)

/-- Python subscription `ret[k]` on what `api_request` returned:
a `TypeError` when the return is a raw response object. -/
def api_return_item : ApiReturn → String → Except PyErr JVal
  | .json v, k => jGet v k
  | .raw _, _ => .error .typeError

/-- Python `k in ret` on what `api_request` returned; membership in
anything but a dict is modelled as false (the theorems only apply it to
dict envelopes). -/
def api_return_has_key : ApiReturn → String → Bool
  | .json (.obj fs), k => fs.any (fun p => p.1 = k)
  | _, _ => false

/-- The payload `refresh()` posts to `/auth/refresh` (lines 468-476). -/
def refresh_payload (st : SessionState) : JVal :=
  .obj [("ResponseType", .str "token"),
        ("GrantType", .str "refresh_token"),
        ("RefreshToken", (Session.RefreshToken st).getD .null),
        ("RedirectURI", .str "http://protonmail.ch")]

/-- `Session.refresh` (lines 461-479): post `/auth/refresh`, overwrite
`AccessToken` and then `RefreshToken` in the session data from the
response (a missing key raises at that point, keeping the updates made
so far), and rewrite the `Authorization` header from the new access
token (`"Bearer " +` a non-string raises `TypeError`). -/
def refresh (net : Net) (dnsEnv : DnsEnv) (st : SessionState) :
    SessionState × List Request × Except ApiError Unit :=
  match api_request net dnsEnv st "/auth/refresh" (some (refresh_payload st)) none none none with
  | (st1, tr, .error e) => (st1, tr, .error e)
  | (st1, tr, .ok ret) =>
    match api_return_item ret "AccessToken" with
    | .error e => (st1, tr, .error (pyErr e))
    | .ok atk =>
      let st2 := { st1 with session_data := hset st1.session_data "AccessToken" atk }
      match api_return_item ret "RefreshToken" with
      | .error e => (st2, tr, .error (pyErr e))
      | .ok rtk =>
        let st3 := { st2 with session_data := hset st2.session_data "RefreshToken" rtk }
        match Session.AccessToken st3 with
        | some (.str a) =>
          ({ st3 with headers := hset st3.headers "Authorization" (.str ("Bearer " ++ a)) },
           tr, .ok ())
        | _ => (st3, tr, .error .typeError)

/-- The result of `gnupg.GPG().decrypt` on a cleartext-signed blob:
whether the signature verified, the signer fingerprint, and the signed
plaintext.  Malformed armor or a bad signature yield `valid = false`. -/
structure GpgVerify where
  valid : Bool
  fingerprint : String
  data : String

/-- The SRP user object (`proton.srp.User`), abstracted to the three
operations `authenticate` uses: `get_challenge` (the client ephemeral),
`process_challenge` over salt, server challenge and version (returning
the client proof or `None` on an invalid server challenge), and whether
`verify_session` on a given server proof leaves the user
`authenticated()`. -/
structure SrpUser where
  get_challenge : String
  process_challenge : String → String → JVal → Option String
  authenticated_after : String → Bool

/-- The cryptographic collaborators of the session, supplied as oracles:
base64 decoding (`none` models a `binascii` decoding error), base64
encoding, `gnupg` decryption/verification, and SRP user construction
from password and modulus. -/
structure Crypto where
  b64decode : String → Option String
  b64encode : String → String
  gpg_decrypt : String → GpgVerify
  mkUser : String → String → SrpUser

/-- Modelled from the spec: `SRP_MODULUS_KEY_FINGERPRINT` from
`proton/constants.py`, which is not under `src/`.  The spec (§4.2, §6)
says only that it is a hard-coded hex fingerprint; it is modelled as a
lowercase hex placeholder, which is what makes the `.lower()` comparison
in `verify_modulus` a case-insensitive match. -/
def SRP_MODULUS_KEY_FINGERPRINT : String :=
  "248545002b8b6ba2b0b9d0c29e01e5f3ed0c3e94"

/-- `Session.verify_modulus` (lines 358-366): `gpg.decrypt` the armored
blob, require a valid signature whose fingerprint, lowercased, equals
the hard-coded fingerprint — otherwise `ValueError("Invalid modulus")` —
and return the base64-decoded, whitespace-stripped plaintext. -/
def verify_modulus (c : Crypto) (armored_modulus : String) : Except ApiError String :=
  let verified := c.gpg_decrypt armored_modulus
  if !(verified.valid && py_lower verified.fingerprint == SRP_MODULUS_KEY_FINGERPRINT) then
    .error .invalidModulus
  else
    match c.b64decode (py_strip verified.data) with
    | some d => .ok d
    | none => .error .binasciiError

/-- Python truthiness of the optional `ClientSecret` (`if
self.__clientsecret:`): present and non-empty. -/
def has_clientsecret : Option String → Bool
  | some c => c ≠ ""
  | none => false

/-- The `/auth/info` payload of `authenticate` (lines 383-385):
`{"Username": username}` plus `ClientSecret` when configured. -/
def auth_payload (username : String) (cs : Option String) : JVal :=
  if has_clientsecret cs then
    .obj [("Username", .str username), ("ClientSecret", .str (cs.getD ""))]
  else .obj [("Username", .str username)]

/-- Lift a base64 decode to the error monad (`binascii.Error`). -/
def b64dec (c : Crypto) (s : String) : Except ApiError String :=
  match c.b64decode s with
  | some d => .ok d
  | none => .error .binasciiError

/-- The SRP phase of `authenticate` (lines 389-411): verify the modulus
from `/auth/info`, decode the server ephemeral and the salt, build the
SRP user, process the challenge (`None` raises
`ValueError("Invalid challenge")`), and build the `/auth` payload with
the base64-encoded client ephemeral and proof, the `SRPSession`, and the
`ClientSecret` when configured. -/
def srp_phase (c : Crypto) (username : String) (cs : Option String)
    (password : String) (iret : ApiReturn) : Except ApiError (SrpUser × JVal) := do
  let modulusJ ← (api_return_item iret "Modulus").mapError pyErr
  let modulusS ← (jvalStr modulusJ).mapError pyErr
  let modulus ← verify_modulus c modulusS
  let seJ ← (api_return_item iret "ServerEphemeral").mapError pyErr
  let seS ← (jvalStr seJ).mapError pyErr
  let server_challenge ← b64dec c seS
  let saltJ ← (api_return_item iret "Salt").mapError pyErr
  let saltS ← (jvalStr saltJ).mapError pyErr
  let salt ← b64dec c saltS
  let version ← (api_return_item iret "Version").mapError pyErr
  let usr := c.mkUser password modulus
  let client_challenge := usr.get_challenge
  match usr.process_challenge salt server_challenge version with
  | none => .error .invalidChallenge
  | some client_proof => do
    let srpSession ← (api_return_item iret "SRPSession").mapError pyErr
    let base := [("Username", JVal.str username),
                 ("ClientEphemeral", JVal.str (c.b64encode client_challenge)),
                 ("ClientProof", JVal.str (c.b64encode client_proof)),
                 ("SRPSession", srpSession)]
    let fields := if has_clientsecret cs then
        base ++ [("ClientSecret", JVal.str (cs.getD ""))]
      else base
    .ok (usr, JVal.obj fields)

/-- The tail of `authenticate` (lines 413-434): if the `/auth` response
lacks `ServerProof`, raise `ValueError("Invalid password")` WITHOUT
touching the session data or the headers; otherwise verify the server
proof (failure raises `ValueError("Invalid server proof")`), store the
credentials, set the `x-pm-uid` and `Authorization` headers when a UID
is present, and return the `Scope`. -/
def finish_auth (c : Crypto) (usr : SrpUser) (st : SessionState)
    (tr : List Request) (aret : ApiReturn) :
    SessionState × List Request × Except ApiError JVal :=
  if !(api_return_has_key aret "ServerProof") then (st, tr, .error .invalidPassword)
  else
    match api_return_item aret "ServerProof" with
    | .error e => (st, tr, .error (pyErr e))
    | .ok spJ =>
      match jvalStr spJ with
      | .error e => (st, tr, .error (pyErr e))
      | .ok spS =>
        match c.b64decode spS with
        | none => (st, tr, .error .binasciiError)
        | some sp =>
          if !(usr.authenticated_after sp) then (st, tr, .error .invalidServerProof)
          else
            match api_return_item aret "UID" with
            | .error e => (st, tr, .error (pyErr e))
            | .ok uid =>
              match api_return_item aret "AccessToken" with
              | .error e => (st, tr, .error (pyErr e))
              | .ok atk =>
                match api_return_item aret "RefreshToken" with
                | .error e => (st, tr, .error (pyErr e))
                | .ok rtk =>
                  match api_return_item aret "PasswordMode" with
                  | .error e => (st, tr, .error (pyErr e))
                  | .ok pm =>
                    match api_return_item aret "Scope" with
                    | .error e => (st, tr, .error (pyErr e))
                    | .ok scJ =>
                      match jvalStr scJ with
                      | .error e => (st, tr, .error (pyErr e))
                      | .ok sc =>
                        let scope := JVal.arr ((py_split sc).map JVal.str)
                        let sd := [("UID", uid), ("AccessToken", atk),
                                   ("RefreshToken", rtk), ("PasswordMode", pm),
                                   ("Scope", scope)]
                        let st1 := { st with session_data := sd }
                        match Session.UID st1 with
                        | none => (st1, tr, .ok (Session.Scope st1))
                        | some u =>
                          match Session.AccessToken st1 with
                          | some (.str a) =>
                            let hs := hset st1.headers "x-pm-uid" u
                            let st2 := { st1 with
                              headers := hset hs "Authorization" (.str ("Bearer " ++ a)) }
                            (st2, tr, .ok (Session.Scope st2))
                          | _ => (st1, tr, .error .typeError)

/-- `Session.authenticate` (lines 368-434): logout first (its failures
propagate), POST `/auth/info`, run the SRP phase, POST `/auth`, and
finish with the server-proof check and credential storage. -/
def authenticate (c : Crypto) (net : Net) (dnsEnv : DnsEnv) (st : SessionState)
    (username password : String) :
    SessionState × List Request × Except ApiError JVal :=
  match logout net dnsEnv st with
  | (st1, tr1, .error e) => (st1, tr1, .error e)
  | (st1, tr1, .ok _) =>
    let payload := auth_payload username st1.clientsecret
    match api_request net dnsEnv st1 "/auth/info" (some payload) none none none with
    | (st2, tr2, .error e) => (st2, tr1 ++ tr2, .error e)
    | (st2, tr2, .ok iret) =>
      match srp_phase c username st2.clientsecret password iret with
      | .error e => (st2, tr1 ++ tr2, .error e)
      | .ok (usr, payload2) =>
        match api_request net dnsEnv st2 "/auth" (some payload2) none none none with
        | (st3, tr3, .error e) => (st3, tr1 ++ tr2 ++ tr3, .error e)
        | (st3, tr3, .ok aret) => finish_auth c usr st3 (tr1 ++ tr2 ++ tr3) aret

/-- `Session.provide_2fa` (lines 436-451): post the code to `/auth/2fa`
and overwrite the stored `Scope` from the response. -/
def provide_2fa (net : Net) (dnsEnv : DnsEnv) (st : SessionState) (code : String) :
    SessionState × List Request × Except ApiError JVal :=
  match api_request net dnsEnv st "/auth/2fa"
      (some (.obj [("TwoFactorCode", .str code)])) none none none with
  | (st1, tr, .error e) => (st1, tr, .error e)
  | (st1, tr, .ok ret) =>
    match api_return_item ret "Scope" with
    | .error e => (st1, tr, .error (pyErr e))
    | .ok sc =>
      let st2 := { st1 with session_data := hset st1.session_data "Scope" sc }
      (st2, tr, .ok (Session.Scope st2))

/-- The `enable_alternative_routing` setter (lines 623-635): coerce the
new value with `bool(...)` and store it when it differs; after any call
the policy is `some`. -/
def set_enable_alternative_routing (st : SessionState) (newvalue : JVal) : SessionState :=
  if st.allow_alternative_routes ≠ some (py_truthy newvalue) then
    { st with allow_alternative_routes := some (py_truthy newvalue) }
  else st

/-- The `force_skip_alternative_routing` setter (lines 642-655). -/
def set_force_skip_alternative_routing (st : SessionState) (newvalue : JVal) : SessionState :=
  { st with force_skip_alternative_routing := py_truthy newvalue }

/-- The `human_verification_token` setter (lines 664-672). -/
def set_human_verification_token (st : SessionState) (t v : JVal) : SessionState :=
  let hs := hset st.headers "X-PM-Human-Verification-Token-Type" t
  { st with headers := hset hs "X-PM-Human-Verification-Token" v }

/-- Every state-mutating operation a caller can perform on a session
after construction, with its oracles.  Used to state session-lifetime
invariants. -/
inductive SOp where
  | setAlt (v : JVal) : SOp
  | setForceSkip (v : JVal) : SOp
  | setHV (t v : JVal) : SOp
  | delHV : SOp
  | doApi (net : Net) (dnsEnv : DnsEnv) (endpoint : String) (jsondata : Option JVal)
      (addh : Option (List (String × JVal))) (method : Option String)
      (params : Option (List (String × String))) : SOp
  | doLogout (net : Net) (dnsEnv : DnsEnv) : SOp
  | doRefresh (net : Net) (dnsEnv : DnsEnv) : SOp
  | doAuth (c : Crypto) (net : Net) (dnsEnv : DnsEnv) (u p : String) : SOp
  | do2fa (net : Net) (dnsEnv : DnsEnv) (code : String) : SOp

/-- Run one session operation, keeping the resulting state (outcomes and
raised errors are discarded; a Python exception leaves the state the
operation produced up to the raise, exactly as the embedding returns
it). -/
def run_op (st : SessionState) : SOp → SessionState
  | .setAlt v => set_enable_alternative_routing st v
  | .setForceSkip v => set_force_skip_alternative_routing st v
  | .setHV t v => set_human_verification_token st t v
  | .delHV => del_human_verification_token st
  | .doApi net dnsEnv e j a m p => (api_request net dnsEnv st e j a m p).1
  | .doLogout net dnsEnv => (logout net dnsEnv st).1
  | .doRefresh net dnsEnv => (refresh net dnsEnv st).1
  | .doAuth c net dnsEnv u p => (authenticate c net dnsEnv st u p).1
  | .do2fa net dnsEnv code => (provide_2fa net dnsEnv st code).1

/-- State components `api_request` never mutates: the routing policy,
the session data, and every header other than the two
human-verification headers (which envelope code 12087 deletes). -/
def api_preserves (st st' : SessionState) : Prop :=
  st'.allow_alternative_routes = st.allow_alternative_routes ∧
  st'.session_data = st.session_data ∧
  ∀ k, k ≠ "X-PM-Human-Verification-Token-Type" →
    k ≠ "X-PM-Human-Verification-Token" →
    hGet st'.headers k = hGet st.headers k

/-- The quote-stripped strings of the LAST rrset of a DNS answer
section; written from the amended reading of the spec, to be compared
with `extract_dns_answer` as translated from the code. -/
def extract_last_rrset (r : DnsResponse) : List String :=
  match r.answer.getLast? with
  | none => []
  | some rrset => rrset.map strip_quotes

/-- The amended DoH-resolution contract: for each encoded name in order,
consider only the LAST collected provider response; stop at the first
name for which the extraction of that response's last rrset is
non-empty, and return it; names with no collected responses or an empty
extraction contribute nothing. -/
def amended_routes : DnsEnv → List String
  | [] => []
  | block :: rest =>
    match (collect_responses block).getLast? with
    | none => amended_routes rest
    | some r =>
      let rs := extract_last_rrset r
      if rs.isEmpty then amended_routes rest else rs

/-- A freshly constructed sample session (alternative routing unset). -/
def sampleNew : SessionState := session_new "https://api.test" "app" "ua" true none

/-- The sample session with alternative routing disabled. -/
def stOff : SessionState := { sampleNew with allow_alternative_routes := some false }

/-- The sample session with alternative routing enabled. -/
def stOn : SessionState := { sampleNew with allow_alternative_routes := some true }

/-- A 200 response with a non-JSON body. -/
def resp200raw : HttpResponse := ⟨200, "OK", [("Content-Type", "text/plain")], none⟩

/-- A 500 response with a non-JSON body (falsy as a `requests` response). -/
def respBad : HttpResponse := ⟨500, "Internal Server Error", [], none⟩

/-- A network in which every request gets the 500 response back. -/
def netBad : Net := fun _ => .success respBad

/-- A network in which every connection attempt fails. -/
def netDown : Net := fun _ => .connectionError

/-- A network in which every request gets the raw 200 response back. -/
def netRaw200 : Net := fun _ => .success resp200raw

/-- Sample request parameters for a GET against the sample API. -/
def pSample : ReqParams := ⟨"get", "https://api.test", "/x", none, none, none, true⟩

/-- A DoH response whose answer section holds one rrset with one quoted
TXT value. -/
def dnsRespA : DnsResponse := ⟨[["\"a\""]]⟩

/-- A DoH response with an empty answer section. -/
def dnsRespEmpty : DnsResponse := ⟨[]⟩

/-- A DoH environment with one encoded name whose FIRST collected
response has a non-empty TXT answer and whose LAST collected response
has an empty one. -/
def dnsEnvC3 : DnsEnv := [[some dnsRespA, some dnsRespEmpty]]

/-- A DoH environment resolving to the single alternative host `h1`. -/
def dnsEnvOne : DnsEnv := [[some ⟨[["h1"]]⟩]]

/-- The sample session, authenticated: credentials in the session data
and the corresponding auth headers present. -/
def stAuthd : SessionState :=
  { stOff with
    session_data := [("UID", .str "u1"), ("AccessToken", .str "a1"),
                     ("RefreshToken", .str "r1"), ("PasswordMode", .num 1),
                     ("Scope", .arr [.str "mail", .str "vpn"])],
    headers := stOff.headers ++
      [("x-pm-uid", .str "u1"), ("Authorization", .str "Bearer a1")] }

/-- The headers `__init__` gives a session, as a function of its
identifying strings. -/
def base_headers_of (st : SessionState) : List (String × JVal) :=
  [("x-pm-appversion", .str st.appversion), ("User-Agent", .str st.user_agent)]

/-- The headers of a session whose auth headers were applied on top of
the constructor headers, as `authenticate` and `load` do. -/
def auth_headers_of (st : SessionState) (u : JVal) (a : String) : List (String × JVal) :=
  hset (hset (base_headers_of st) "x-pm-uid" u) "Authorization" (.str ("Bearer " ++ a))

/-- The header invariant of the data model (spec §3): the header map is
exactly the constructor headers, extended with `x-pm-uid` and
`Authorization: Bearer <AccessToken>` precisely when credentials are
present. -/
def wellFormedHeaders (st : SessionState) : Prop :=
  (Session.UID st = none ∧ st.headers = base_headers_of st) ∨
  (∃ u a, Session.UID st = some u ∧ Session.AccessToken st = some (.str a) ∧
    st.headers = auth_headers_of st u a)

/-- A concrete crypto oracle: identity base64, a fixed signature-valid
result whose signer fingerprint is the UPPERCASE of the hard-coded
fingerprint (exercising the case-insensitive match), and an SRP user
with fixed challenge and proof. -/
def cryptoId : Crypto :=
  { b64decode := fun s => some s,
    b64encode := fun s => s,
    gpg_decrypt := fun _ => ⟨true, "248545002B8B6BA2B0B9D0C29E01E5F3ED0C3E94", "bW9k"⟩,
    mkUser := fun _ _ => ⟨"A", fun _ _ _ => some "P", fun _ => true⟩ }

/-- The JSON body of a successful `/auth/info` response. -/
def infoBody : JVal :=
  .obj [("Code", .num 1000), ("Modulus", .str "m"), ("ServerEphemeral", .str "se"),
        ("Salt", .str "slt"), ("Version", .num 4), ("SRPSession", .str "sess")]

/-- The `/auth/info` response. -/
def infoResp : HttpResponse := ⟨200, "OK", [], some infoBody⟩

/-- An `/auth` response that lacks `ServerProof`. -/
def authRespNoProof : HttpResponse := ⟨200, "OK", [], some (.obj [("Code", .num 1000)])⟩

/-- A network serving the `/auth/info` fixture on its endpoint and the
proof-less `/auth` response everywhere else. -/
def netAuth : Net := fun req =>
  if req.url = "https://api.test/auth/info" then .success infoResp
  else .success authRespNoProof

/-- The `/auth` payload `srp_phase` produces from the fixtures. -/
def payloadC6 : JVal :=
  .obj [("Username", .str "alice"), ("ClientEphemeral", .str "A"),
        ("ClientProof", .str "P"), ("SRPSession", .str "sess")]

/-- The JSON body of a refresh response carrying rotated tokens. -/
def refreshBody : JVal :=
  .obj [("Code", .num 1000), ("AccessToken", .str "a2"), ("RefreshToken", .str "r2")]

/-- A refresh response carrying rotated tokens. -/
def refreshResp : HttpResponse := ⟨200, "OK", [], some refreshBody⟩

/-- A network in which every request gets the refresh response. -/
def netRefresh : Net := fun _ => .success refreshResp

section Lemmas

/-- Looking up the key just set. -/
theorem hGet_hset_self (hs : List (String × JVal)) (k : String) (v : JVal) :
    hGet (hset hs k v) k = some v := by
  induction hs with
  | nil => simp [hset, hGet]
  | cons a t ih =>
    by_cases h : a.1 = k
    · simp [hset, hGet, h]
    · simp [hset, hGet, h, ih]

/-- Looking up a different key after a set. -/
theorem hGet_hset_ne (hs : List (String × JVal)) (k k' : String) (v : JVal)
    (h : k' ≠ k) : hGet (hset hs k v) k' = hGet hs k' := by
  have h2 : ¬ (k = k') := fun hh => h hh.symm
  induction hs with
  | nil => simp [hset, hGet, h2]
  | cons a t ih =>
    by_cases ha : a.1 = k
    · simp [hset, hGet, ha, h2]
    · by_cases ha' : a.1 = k'
      · simp [hset, hGet, ha, ha', h]
      · simp [hset, hGet, ha, ha', ih]

/-- Looking up a different key after a delete. -/
theorem hGet_hdel_ne (hs : List (String × JVal)) (k k' : String)
    (h : k' ≠ k) : hGet (hdel hs k) k' = hGet hs k' := by
  have h2 : ¬ (k = k') := fun hh => h hh.symm
  induction hs with
  | nil => simp [hdel]
  | cons a t ih =>
    by_cases ha : a.1 = k
    · have : ¬ a.1 = k' := by rw [ha]; exact fun hh => h hh.symm
      simp [hdel, hGet, ha, this, ih, h2]
    · by_cases ha' : a.1 = k'
      · simp [hdel, hGet, ha, ha', h]
      · simp [hdel, hGet, ha, ha', ih]

theorem api_preserves_refl (st : SessionState) : api_preserves st st :=
  ⟨rfl, rfl, fun _ _ _ => rfl⟩

theorem api_preserves_trans {s1 s2 s3 : SessionState}
    (h12 : api_preserves s1 s2) (h23 : api_preserves s2 s3) : api_preserves s1 s3 :=
  ⟨h23.1.trans h12.1, h23.2.1.trans h12.2.1,
   fun k hk1 hk2 => (h23.2.2 k hk1 hk2).trans (h12.2.2 k hk1 hk2)⟩

theorem del_hv_preserves (st : SessionState) :
    api_preserves st (del_human_verification_token st) := by
  refine ⟨rfl, rfl, fun k h1 h2 => ?_⟩
  show hGet (hdel (hdel st.headers "X-PM-Human-Verification-Token-Type")
    "X-PM-Human-Verification-Token") k = hGet st.headers k
  rw [hGet_hdel_ne _ _ _ h2, hGet_hdel_ne _ _ _ h1]

theorem store_route_preserves (st : SessionState) (u : String) :
    api_preserves st (store_alternative_route st u) :=
  ⟨rfl, rfl, fun _ _ _ => rfl⟩

theorem envelope_check_preserves (st : SessionState) (status : Int) (v : JVal) :
    api_preserves st (envelope_check st status v).1 := by
  unfold envelope_check
  split
  · exact api_preserves_refl st
  · split
    · exact api_preserves_refl st
    · exact api_preserves_refl st
  · split
    · exact api_preserves_refl st
    · split
      · split
        · exact api_preserves_refl st
        · split
          · exact api_preserves_refl st
          · exact api_preserves_refl st
        · exact ⟨rfl, rfl, fun _ _ _ => rfl⟩
      · split
        · exact del_hv_preserves st
        · exact api_preserves_refl st

theorem handle_response_preserves (st : SessionState) (r? : Option HttpResponse) :
    api_preserves st (handle_response st r?).1 := by
  unfold handle_response
  split
  · exact api_preserves_refl st
  · split
    · split
      · exact api_preserves_refl st
      · exact api_preserves_refl st
    · exact envelope_check_preserves st _ _

theorem alt_loop_preserves (net : Net) (p : ReqParams) (st : SessionState) :
    ∀ routes : List String, api_preserves st (alt_loop net p st routes).1 := by
  intro routes
  induction routes with
  | nil => exact api_preserves_refl st
  | cons route rest ih =>
    unfold alt_loop
    dsimp only
    split
    · split
      · exact store_route_preserves st _
      · exact store_route_preserves st _
    · exact ih

theorem try_with_alt_routing_preserves (net : Net) (dnsEnv : DnsEnv)
    (st : SessionState) (p : ReqParams) :
    api_preserves st (try_with_alt_routing net dnsEnv st p).1 :=
  alt_loop_preserves net _ st _

theorem api_request_skip_preserves (net : Net) (st : SessionState) (endpoint : String)
    (jsondata : Option JVal) (addh : Option (List (String × JVal)))
    (method : Option String) (params : Option (List (String × String))) :
    api_preserves st (api_request_skip net st endpoint jsondata addh method params).1 := by
  unfold api_request_skip
  split
  · exact api_preserves_refl st
  · split
    · exact api_preserves_refl st
    · dsimp only
      split
      · exact handle_response_preserves st _
      · exact api_preserves_refl st
      · exact api_preserves_refl st
      · exact api_preserves_refl st
      · exact api_preserves_refl st

theorem is_api_reacheable_preserves (net : Net) (st : SessionState) :
    api_preserves st (is_api_reacheable net st).1 := by
  unfold is_api_reacheable
  dsimp only
  have h := api_request_skip_preserves net st "/tests/ping" none none none none
  split <;> exact h

theorem api_detour_preserves (net : Net) (dnsEnv : DnsEnv) (st : SessionState)
    (p : ReqParams) (fr : Request) (e : ApiError) (b : Bool) :
    api_preserves st (api_detour net dnsEnv st p fr e b).1 := by
  unfold api_detour
  split
  · exact api_preserves_refl st
  · split
    · rename_i st1 tr1 e1 heq
      have h1 := is_api_reacheable_preserves net st
      rw [heq] at h1
      exact h1
    · rename_i st1 tr1 heq
      have h1 := is_api_reacheable_preserves net st
      rw [heq] at h1
      dsimp only
      exact api_preserves_trans h1 (handle_response_preserves st1 none)
    · rename_i st1 tr1 heq
      have h1 := is_api_reacheable_preserves net st
      rw [heq] at h1
      have h2 := try_with_alt_routing_preserves net dnsEnv st1 p
      split
      · rename_i st2 tr2 e2 heq2
        rw [heq2] at h2
        exact api_preserves_trans h1 h2
      · rename_i st2 tr2 r heq2
        rw [heq2] at h2
        dsimp only
        exact api_preserves_trans h1
          (api_preserves_trans h2 (handle_response_preserves st2 (some r)))

theorem api_request_preserves (net : Net) (dnsEnv : DnsEnv) (st : SessionState)
    (endpoint : String) (jsondata : Option JVal) (addh : Option (List (String × JVal)))
    (method : Option String) (params : Option (List (String × String))) :
    api_preserves st (api_request net dnsEnv st endpoint jsondata addh method params).1 := by
  unfold api_request
  split
  · exact api_preserves_refl st
  · split
    · exact api_preserves_refl st
    · dsimp only
      split
      · exact handle_response_preserves st _
      · exact api_preserves_refl st
      · exact api_detour_preserves net dnsEnv st _ _ _ _

theorem envelope_check_no_policy (st : SessionState) (status : Int) (v : JVal) :
    (envelope_check st status v).2 ≠ Except.error ApiError.policyNotConfigured := by
  unfold envelope_check
  split
  · simp
  · split <;> simp
  · split
    · simp
    · split
      · split
        · simp
        · split <;> simp
        · simp
      · split <;> simp

theorem handle_response_no_policy (st : SessionState) (r? : Option HttpResponse) :
    (handle_response st r?).2 ≠ Except.error ApiError.policyNotConfigured := by
  unfold handle_response
  split
  · simp
  · split
    · split <;> simp
    · exact envelope_check_no_policy st _ _

theorem alt_loop_no_policy (net : Net) (p : ReqParams) (st : SessionState) :
    ∀ routes : List String,
      (alt_loop net p st routes).2.2 ≠ Except.error ApiError.policyNotConfigured := by
  intro routes
  induction routes with
  | nil => simp [alt_loop]
  | cons route rest ih =>
    unfold alt_loop
    dsimp only
    split
    · split <;> simp
    · exact ih

theorem api_request_skip_no_policy (net : Net) (st : SessionState) (endpoint : String)
    (jsondata : Option JVal) (addh : Option (List (String × JVal)))
    (method : Option String) (params : Option (List (String × String)))
    (b : Bool) (hb : st.allow_alternative_routes = some b) :
    (api_request_skip net st endpoint jsondata addh method params).2.2 ≠
      Except.error ApiError.policyNotConfigured := by
  unfold api_request_skip
  rw [hb]
  split
  · rename_i heq
    exact absurd heq (by simp)
  · split
    · simp
    · dsimp only
      split
      · exact handle_response_no_policy st _
      · simp
      · simp
      · simp
      · simp

theorem is_api_reacheable_no_policy (net : Net) (st : SessionState)
    (b : Bool) (hb : st.allow_alternative_routes = some b) :
    (is_api_reacheable net st).2.2 ≠ Except.error ApiError.policyNotConfigured := by
  unfold is_api_reacheable
  dsimp only
  have h := api_request_skip_no_policy net st "/tests/ping" none none none none b hb
  split
  · simp
  · simp
  · simp
  · simp
  · rename_i e heq
    rw [heq] at h
    simpa using fun hcontra => h (by rw [hcontra])

theorem try_with_alt_routing_no_policy (net : Net) (dnsEnv : DnsEnv)
    (st : SessionState) (p : ReqParams) :
    (try_with_alt_routing net dnsEnv st p).2.2 ≠
      Except.error ApiError.policyNotConfigured := by
  unfold try_with_alt_routing
  exact alt_loop_no_policy net _ st _

theorem api_detour_no_policy (net : Net) (dnsEnv : DnsEnv) (st : SessionState)
    (p : ReqParams) (fr : Request) (e : ApiError) (b : Bool)
    (he : e ≠ ApiError.policyNotConfigured)
    (hb : st.allow_alternative_routes = some b) :
    (api_detour net dnsEnv st p fr e b).2.2 ≠
      Except.error ApiError.policyNotConfigured := by
  unfold api_detour
  split
  · simpa using fun hcontra => he (by rw [hcontra])
  · split
    · rename_i st1 tr1 e1 heq
      have h := is_api_reacheable_no_policy net st b hb
      rw [heq] at h
      simpa using fun hcontra => h (by rw [hcontra])
    · dsimp only
      exact handle_response_no_policy _ none
    · rename_i st1 tr1 heq
      split
      · rename_i st2 tr2 e2 heq2
        have h := try_with_alt_routing_no_policy net dnsEnv st1 p
        rw [heq2] at h
        simpa using fun hcontra => h (by rw [hcontra])
      · dsimp only
        exact handle_response_no_policy _ _

theorem transport_error_no_policy (tres : TransportResult) :
    transport_error tres ≠ ApiError.policyNotConfigured := by
  cases tres <;> simp [transport_error]

theorem api_request_no_policy (net : Net) (dnsEnv : DnsEnv) (st : SessionState)
    (endpoint : String) (jsondata : Option JVal) (addh : Option (List (String × JVal)))
    (method : Option String) (params : Option (List (String × String)))
    (b : Bool) (hb : st.allow_alternative_routes = some b) :
    (api_request net dnsEnv st endpoint jsondata addh method params).2.2 ≠
      Except.error ApiError.policyNotConfigured := by
  unfold api_request
  rw [hb]
  split
  · rename_i heq
    exact absurd heq (by simp)
  · rename_i b' heq0
    injection heq0 with h0
    subst h0
    split
    · simp
    · dsimp only
      split
      · exact handle_response_no_policy st _
      · simp
      · exact api_detour_no_policy net dnsEnv st _ _ _ _ (transport_error_no_policy _) hb

theorem finish_auth_allow (c : Crypto) (usr : SrpUser) (st : SessionState)
    (tr : List Request) (aret : ApiReturn) :
    (finish_auth c usr st tr aret).1.allow_alternative_routes =
      st.allow_alternative_routes := by
  unfold finish_auth
  dsimp only
  repeat' split
  all_goals rfl

theorem logout_allow (net : Net) (dnsEnv : DnsEnv) (st : SessionState) :
    (logout net dnsEnv st).1.allow_alternative_routes = st.allow_alternative_routes := by
  unfold logout
  split
  · rfl
  · have h := (api_request_preserves net dnsEnv st "/auth" none none (some "DELETE") none).1
    split
    · rename_i st1 tr e heq
      rw [heq] at h
      exact h
    · rename_i st1 tr u heq
      rw [heq] at h
      dsimp only
      split
      · split
        · exact h
        · exact h
      · exact h

theorem refresh_allow (net : Net) (dnsEnv : DnsEnv) (st : SessionState) :
    (refresh net dnsEnv st).1.allow_alternative_routes = st.allow_alternative_routes := by
  unfold refresh
  have h := (api_request_preserves net dnsEnv st "/auth/refresh"
    (some (refresh_payload st)) none none none).1
  split
  · rename_i st1 tr e heq
    rw [heq] at h
    exact h
  · rename_i st1 tr ret heq
    rw [heq] at h
    dsimp only
    split
    · exact h
    · split
      · exact h
      · split
        · exact h
        · exact h

theorem authenticate_allow (c : Crypto) (net : Net) (dnsEnv : DnsEnv)
    (st : SessionState) (username password : String) :
    (authenticate c net dnsEnv st username password).1.allow_alternative_routes =
      st.allow_alternative_routes := by
  unfold authenticate
  have hl := logout_allow net dnsEnv st
  split
  · rename_i st1 tr1 e heq
    rw [heq] at hl
    exact hl
  · rename_i st1 tr1 u heq
    rw [heq] at hl
    have h2 := (api_request_preserves net dnsEnv st1 "/auth/info"
      (some (auth_payload username st1.clientsecret)) none none none).1
    dsimp only
    split
    · rename_i st2 tr2 e heq2
      rw [heq2] at h2
      exact h2.trans hl
    · rename_i st2 tr2 iret heq2
      rw [heq2] at h2
      split
      · exact h2.trans hl
      · rename_i usr payload2 heq3
        have h3 := (api_request_preserves net dnsEnv st2 "/auth"
          (some payload2) none none none).1
        split
        · rename_i st3 tr3 e heq4
          rw [heq4] at h3
          exact (h3.trans h2).trans hl
        · rename_i st3 tr3 aret heq4
          rw [heq4] at h3
          exact ((finish_auth_allow c usr st3 _ aret).trans (h3.trans h2)).trans hl

theorem provide_2fa_allow (net : Net) (dnsEnv : DnsEnv) (st : SessionState)
    (code : String) :
    (provide_2fa net dnsEnv st code).1.allow_alternative_routes =
      st.allow_alternative_routes := by
  unfold provide_2fa
  have h := (api_request_preserves net dnsEnv st "/auth/2fa"
    (some (.obj [("TwoFactorCode", .str code)])) none none none).1
  split
  · rename_i st1 tr e heq
    rw [heq] at h
    exact h
  · rename_i st1 tr ret heq
    rw [heq] at h
    split
    · exact h
    · exact h

theorem set_alt_isSome (st : SessionState) (v : JVal) :
    (set_enable_alternative_routing st v).allow_alternative_routes.isSome = true := by
  unfold set_enable_alternative_routing
  split
  · simp
  · rename_i h
    rw [not_not] at h
    rw [h]
    simp

theorem run_op_allow_isSome (st : SessionState) (op : SOp)
    (h : st.allow_alternative_routes.isSome = true) :
    (run_op st op).allow_alternative_routes.isSome = true := by
  cases op with
  | setAlt v => exact set_alt_isSome st v
  | setForceSkip v => exact h
  | setHV t v => exact h
  | delHV => exact h
  | doApi net dnsEnv e j a m p =>
    unfold run_op
    rw [(api_request_preserves net dnsEnv st e j a m p).1]
    exact h
  | doLogout net dnsEnv =>
    unfold run_op
    rw [logout_allow net dnsEnv st]
    exact h
  | doRefresh net dnsEnv =>
    unfold run_op
    rw [refresh_allow net dnsEnv st]
    exact h
  | doAuth c net dnsEnv u p =>
    unfold run_op
    rw [authenticate_allow c net dnsEnv st u p]
    exact h
  | do2fa net dnsEnv code =>
    unfold run_op
    rw [provide_2fa_allow net dnsEnv st code]
    exact h

theorem foldl_run_op_isSome (ops : List SOp) :
    ∀ st : SessionState, st.allow_alternative_routes.isSome = true →
      (ops.foldl run_op st).allow_alternative_routes.isSome = true := by
  induction ops with
  | nil => exact fun st h => h
  | cons op rest ih =>
    intro st h
    exact ih (run_op st op) (run_op_allow_isSome st op h)

theorem getLast?_cons_ne_none {α : Type} (a : α) (l : List α) :
    (a :: l).getLast? ≠ none := by
  induction l generalizing a with
  | nil => simp
  | cons b t ih =>
    rw [List.getLast?_cons_cons]
    exact ih b

theorem foldl_overwrite {α β : Type} (f : α → β) :
    ∀ (l : List α) (init : β),
      l.foldl (fun _ x => f x) init = (l.getLast?).elim init f := by
  intro l
  induction l with
  | nil => intro init; rfl
  | cons a t ih =>
    intro init
    cases t with
    | nil => rfl
    | cons b t' =>
      show (b :: t').foldl (fun _ x => f x) (f a) = ((a :: b :: t').getLast?).elim init f
      rw [ih (f a), List.getLast?_cons_cons]
      cases hl : (b :: t').getLast? with
      | none => exact absurd hl (getLast?_cons_ne_none b t')
      | some x => rfl

theorem extract_eq_last (r : DnsResponse) :
    extract_dns_answer r = extract_last_rrset r := by
  unfold extract_dns_answer extract_last_rrset
  rw [foldl_overwrite (fun rrset => rrset.map strip_quotes) r.answer []]
  cases r.answer.getLast? <;> rfl

theorem dns_loop_amended : ∀ env : DnsEnv, dns_routes_loop env [] = amended_routes env := by
  intro env
  induction env with
  | nil => rfl
  | cons block rest ih =>
    unfold dns_routes_loop amended_routes
    dsimp only
    cases hc : collect_responses block with
    | nil => simpa using ih
    | cons c cs =>
      rw [if_neg (by simp)]
      rw [foldl_overwrite extract_dns_answer (c :: cs) []]
      cases hl : (c :: cs).getLast? with
      | none => exact absurd hl (getLast?_cons_ne_none c cs)
      | some r0 =>
        dsimp only
        show (if (extract_dns_answer r0).length > 0 then extract_dns_answer r0
              else dns_routes_loop rest (extract_dns_answer r0)) = _
        rw [extract_eq_last r0]
        by_cases he : (extract_last_rrset r0).isEmpty = true
        · have hnil : extract_last_rrset r0 = [] := by
            simpa [List.isEmpty_iff] using he
          rw [if_neg (by simp [hnil]), if_pos he, hnil]
          exact ih
        · have hlen : (extract_last_rrset r0).length > 0 := by
            cases hx : extract_last_rrset r0 with
            | nil => rw [hx] at he; simp at he
            | cons y ys => simp
          rw [if_pos hlen, if_neg he]

theorem alt_loop_all_fail (net : Net) (p : ReqParams) (st : SessionState) :
    ∀ routes : List String,
      (∀ route ∈ routes, transport_success (net (alt_request st.headers p route)) = false) →
      alt_loop net p st routes =
        (st, routes.map (alt_request st.headers p), .error .networkError) := by
  intro routes
  induction routes with
  | nil => intro _; rfl
  | cons route rest ih =>
    intro h
    have hr := h route (List.mem_cons_self route rest)
    unfold alt_loop
    dsimp only
    cases hnet : net (alt_request st.headers p route) with
    | success r =>
      rw [hnet] at hr
      exact absurd hr (by simp [transport_success])
    | connectionError =>
      rw [ih (fun x hx => h x (List.mem_cons_of_mem _ hx))]
      rfl
    | timeout =>
      rw [ih (fun x hx => h x (List.mem_cons_of_mem _ hx))]
      rfl
    | tlsPinningError =>
      rw [ih (fun x hx => h x (List.mem_cons_of_mem _ hx))]
      rfl
    | otherError =>
      rw [ih (fun x hx => h x (List.mem_cons_of_mem _ hx))]
      rfl

theorem alt_loop_first_success (net : Net) (p : ReqParams) (st : SessionState) :
    ∀ (pre : List String) (h : String) (resp : HttpResponse) (rest' : List String),
      (∀ route ∈ pre, transport_success (net (alt_request st.headers p route)) = false) →
      net (alt_request st.headers p h) = .success resp →
      alt_loop net p st (pre ++ h :: rest') =
        (store_alternative_route st ("https://" ++ h),
         (pre ++ [h]).map (alt_request st.headers p),
         if response_truthy resp then .ok resp else .error .networkError) := by
  intro pre
  induction pre with
  | nil =>
    intro h resp rest' _ hnet
    show alt_loop net p st (h :: rest') = _
    unfold alt_loop
    dsimp only
    rw [hnet]
    by_cases ht : response_truthy resp = true
    · simp only [ht, if_true]
      rfl
    · simp only [ht, if_false, Bool.false_eq_true]
      rfl
  | cons q pre' ih =>
    intro h resp rest' hpre hnet
    have hq := hpre q (List.mem_cons_self q pre')
    show alt_loop net p st (q :: (pre' ++ h :: rest')) = _
    unfold alt_loop
    dsimp only
    cases hnetq : net (alt_request st.headers p q) with
    | success r =>
      rw [hnetq] at hq
      exact absurd hq (by simp [transport_success])
    | connectionError =>
      rw [ih h resp rest' (fun x hx => hpre x (List.mem_cons_of_mem _ hx)) hnet]
      rfl
    | timeout =>
      rw [ih h resp rest' (fun x hx => hpre x (List.mem_cons_of_mem _ hx)) hnet]
      rfl
    | tlsPinningError =>
      rw [ih h resp rest' (fun x hx => hpre x (List.mem_cons_of_mem _ hx)) hnet]
      rfl
    | otherError =>
      rw [ih h resp rest' (fun x hx => hpre x (List.mem_cons_of_mem _ hx)) hnet]
      rfl

theorem alt_loop_trace_headers (net : Net) (p : ReqParams) (st : SessionState)
    (haddh : p.addh = none) :
    ∀ (routes : List String) (req : Request),
      req ∈ (alt_loop net p st routes).2.1 → req.headers = st.headers := by
  intro routes
  induction routes with
  | nil =>
    intro req h
    simp [alt_loop] at h
  | cons route rest ih =>
    intro req h
    unfold alt_loop at h
    dsimp only at h
    cases hnet : net (alt_request st.headers p route) with
    | success r =>
      rw [hnet] at h
      dsimp only at h
      split at h <;>
      · simp only [List.mem_singleton] at h
        subst h
        show merge_headers st.headers ((⟨p.method, "https://" ++ route, p.endpoint,
          p.addh, p.jsondata, p.params, false⟩ : ReqParams)).addh = st.headers
        rw [haddh]
        rfl
    | connectionError =>
      rw [hnet] at h
      dsimp only at h
      rcases List.mem_cons.mp h with h | h
      · subst h
        show merge_headers st.headers ((⟨p.method, "https://" ++ route, p.endpoint,
          p.addh, p.jsondata, p.params, false⟩ : ReqParams)).addh = st.headers
        rw [haddh]
        rfl
      · exact ih req h
    | timeout =>
      rw [hnet] at h
      dsimp only at h
      rcases List.mem_cons.mp h with h | h
      · subst h
        show merge_headers st.headers ((⟨p.method, "https://" ++ route, p.endpoint,
          p.addh, p.jsondata, p.params, false⟩ : ReqParams)).addh = st.headers
        rw [haddh]
        rfl
      · exact ih req h
    | tlsPinningError =>
      rw [hnet] at h
      dsimp only at h
      rcases List.mem_cons.mp h with h | h
      · subst h
        show merge_headers st.headers ((⟨p.method, "https://" ++ route, p.endpoint,
          p.addh, p.jsondata, p.params, false⟩ : ReqParams)).addh = st.headers
        rw [haddh]
        rfl
      · exact ih req h
    | otherError =>
      rw [hnet] at h
      dsimp only at h
      rcases List.mem_cons.mp h with h | h
      · subst h
        show merge_headers st.headers ((⟨p.method, "https://" ++ route, p.endpoint,
          p.addh, p.jsondata, p.params, false⟩ : ReqParams)).addh = st.headers
        rw [haddh]
        rfl
      · exact ih req h

theorem try_with_alt_routing_trace_headers (net : Net) (dnsEnv : DnsEnv)
    (st : SessionState) (p : ReqParams) (haddh : p.addh = none) :
    ∀ req ∈ (try_with_alt_routing net dnsEnv st p).2.1, req.headers = st.headers := by
  intro req h
  unfold try_with_alt_routing at h
  dsimp only at h
  exact alt_loop_trace_headers net { p with verify := false } st haddh _ req h

theorem api_request_skip_trace_headers (net : Net) (st : SessionState) (endpoint : String)
    (jsondata : Option JVal) (method : Option String)
    (params : Option (List (String × String))) :
    ∀ req ∈ (api_request_skip net st endpoint jsondata none method params).2.1,
      req.headers = st.headers := by
  intro req h
  unfold api_request_skip at h
  split at h
  · simp at h
  · split at h
    · simp at h
    · dsimp only at h
      split at h <;>
      · simp only [List.mem_singleton] at h
        subst h
        rfl

theorem is_api_reacheable_trace_headers (net : Net) (st : SessionState) :
    ∀ req ∈ (is_api_reacheable net st).2.1, req.headers = st.headers := by
  intro req h
  unfold is_api_reacheable at h
  dsimp only at h
  split at h <;>
    exact api_request_skip_trace_headers net st "/tests/ping" none none none req h

theorem api_detour_trace_auth (net : Net) (dnsEnv : DnsEnv) (st : SessionState)
    (p : ReqParams) (fr : Request) (e : ApiError) (b : Bool) (v : JVal)
    (hauth : hGet st.headers "Authorization" = some v)
    (hfr : fr.headers = st.headers) (haddh : p.addh = none) :
    ∀ req ∈ (api_detour net dnsEnv st p fr e b).2.1,
      hGet req.headers "Authorization" = some v := by
  intro req h
  unfold api_detour at h
  split at h
  · simp only [List.mem_singleton] at h
    subst h
    rw [hfr]
    exact hauth
  · split at h
    · rename_i st1 tr1 e1 heq
      rcases List.mem_cons.mp h with h | h
      · subst h
        rw [hfr]
        exact hauth
      · have := is_api_reacheable_trace_headers net st req
        rw [heq] at this
        rw [this h]
        exact hauth
    · rename_i st1 tr1 heq
      dsimp only at h
      rcases List.mem_cons.mp h with h | h
      · subst h
        rw [hfr]
        exact hauth
      · have := is_api_reacheable_trace_headers net st req
        rw [heq] at this
        rw [this h]
        exact hauth
    · rename_i st1 tr1 heq
      have hpres := is_api_reacheable_preserves net st
      rw [heq] at hpres
      have hauth1 : hGet st1.headers "Authorization" = some v := by
        rw [hpres.2.2 "Authorization" (by decide) (by decide)]
        exact hauth
      split at h
      · rename_i st2 tr2 e2 heq2
        rcases List.mem_cons.mp h with h | h
        · subst h
          rw [hfr]
          exact hauth
        · rcases List.mem_append.mp h with h | h
          · have := is_api_reacheable_trace_headers net st req
            rw [heq] at this
            rw [this h]
            exact hauth
          · have := try_with_alt_routing_trace_headers net dnsEnv st1 p haddh req
            rw [heq2] at this
            rw [this h]
            exact hauth1
      · rename_i st2 tr2 r heq2
        dsimp only at h
        rcases List.mem_cons.mp h with h | h
        · subst h
          rw [hfr]
          exact hauth
        · rcases List.mem_append.mp h with h | h
          · have := is_api_reacheable_trace_headers net st req
            rw [heq] at this
            rw [this h]
            exact hauth
          · have := try_with_alt_routing_trace_headers net dnsEnv st1 p haddh req
            rw [heq2] at this
            rw [this h]
            exact hauth1

theorem api_request_trace_auth (net : Net) (dnsEnv : DnsEnv) (st : SessionState)
    (endpoint : String) (jsondata : Option JVal) (method : Option String)
    (params : Option (List (String × String))) (v : JVal)
    (hauth : hGet st.headers "Authorization" = some v) :
    ∀ req ∈ (api_request net dnsEnv st endpoint jsondata none method params).2.1,
      hGet req.headers "Authorization" = some v := by
  intro req h
  unfold api_request at h
  split at h
  · simp at h
  · split at h
    · simp at h
    · dsimp only at h
      split at h
      · simp only [List.mem_singleton] at h
        subst h
        exact hauth
      · simp only [List.mem_singleton] at h
        subst h
        exact hauth
      · exact api_detour_trace_auth net dnsEnv st _ _ _ _ v hauth rfl rfl req h

theorem refresh_eq_of (net : Net) (dnsEnv : DnsEnv) (st st1 : SessionState)
    (tr : List Request) (ret : ApiReturn) (a2 r2 : String)
    (happ : api_request net dnsEnv st "/auth/refresh" (some (refresh_payload st))
      none none none = (st1, tr, .ok ret))
    (hak : api_return_item ret "AccessToken" = .ok (.str a2))
    (hrk : api_return_item ret "RefreshToken" = .ok (.str r2)) :
    refresh net dnsEnv st =
      ({ st1 with session_data := hset (hset st1.session_data "AccessToken" (.str a2)) "RefreshToken" (.str r2), headers := hset st1.headers "Authorization" (.str ("Bearer " ++ a2)) },
       tr, .ok ()) := by
  unfold refresh
  rw [happ]
  dsimp only
  rw [hak]
  dsimp only
  rw [hrk]
  dsimp only
  have hacc : Session.AccessToken
      { st1 with session_data := hset (hset st1.session_data "AccessToken" (.str a2)) "RefreshToken" (.str r2) } = some (.str a2) := by
    unfold Session.AccessToken sd_get
    dsimp only
    rw [hGet_hset_ne _ _ _ _ (by decide), hGet_hset_self]
  rw [hacc]

end Lemmas

section Claims

/-- C1: for every call to `api_request`, if the alternative-routing
policy has never been set (`allow_alt` unset), the call fails with the
policy-not-configured error before any network I/O occurs (empty
request trace, state untouched), regardless of endpoint, method, body,
or headers. -/
theorem claim_C1_policy_unset_blocks (net : Net) (dnsEnv : DnsEnv) (st : SessionState)
    (endpoint : String) (jsondata : Option JVal) (addh : Option (List (String × JVal)))
    (method : Option String) (params : Option (List (String × String)))
    (h : st.allow_alternative_routes = none) :
    api_request net dnsEnv st endpoint jsondata addh method params =
      (st, [], .error .policyNotConfigured) := by
  unfold api_request
  rw [h]

/-- Witness for C1 at a freshly constructed session and a concrete
request. -/
theorem claim_C1_policy_unset_blocks_witness :
    api_request netDown [] sampleNew "/endpoint" none none none none =
      (sampleNew, [], .error .policyNotConfigured) :=
  claim_C1_policy_unset_blocks netDown [] sampleNew "/endpoint" none none none none rfl

/-- C3 counterexample: one encoded name, two collected DoH responses —
the FIRST has a non-empty TXT answer extracting to `["a"]`, the LAST an
empty one — yet the code returns the empty set, not the set extracted
from the first non-empty response as the claim states. -/
theorem claim_C3_counterexample :
    get_alternative_routes_from_dns dnsEnvC3 = [] ∧
    extract_dns_answer dnsRespA = ["a"] ∧
    dnsEnvC3 = [[some dnsRespA, some dnsRespEmpty]] ∧
    ([] : List String) ≠ ["a"] :=
  ⟨rfl, rfl, rfl, by simp⟩

/-- C3 amended: the returned set is extracted from the LAST collected
response of an encoded name (and, within it, from the last TXT rrset);
the outer loop stops at the first encoded name for which that
extraction is non-empty; names with no collected responses or an empty
extraction contribute nothing. -/
theorem claim_C3_last_response_extraction :
    ∀ env : DnsEnv, get_alternative_routes_from_dns env = amended_routes env :=
  fun env => dns_loop_amended env

/-- C4 counterexample: a single alternative host whose replay returns a
500 response without raising.  The host IS persisted in the Route Cache
and yet `NetworkError` is raised instead of returning the replayed
response — contradicting the claim that a non-raising replay has its
response returned and that on `NetworkError` no alternative host is
retained. -/
theorem claim_C4_counterexample :
    (try_with_alt_routing netBad dnsEnvOne stOn pSample).2.2 =
      .error .networkError ∧
    (try_with_alt_routing netBad dnsEnvOne stOn pSample).1.alt_route =
      some "https://h1" ∧
    netBad (alt_request stOn.headers pSample "h1") = .success respBad ∧
    stOn.alt_route = none :=
  ⟨rfl, rfl, rfl, rfl⟩

/-- C4 amended: the retry loop replays against each host in order and
stops at the first replay that does not raise; that host is persisted in
the Route Cache regardless of the response status, and the response is
returned only when it is truthy (status below 400) — otherwise
`NetworkError` is raised with the host still persisted; when every
replay raises, `NetworkError` is raised and the state is unchanged. -/
theorem claim_C4_first_nonraising_host (net : Net) (dnsEnv : DnsEnv) (st : SessionState)
    (p : ReqParams) (pre rest : List String)
    (hroutes : get_alternative_routes_from_dns dnsEnv = pre ++ rest)
    (hpre : ∀ route ∈ pre,
      transport_success (net (alt_request st.headers p route)) = false) :
    (rest = [] → try_with_alt_routing net dnsEnv st p =
      (st, pre.map (alt_request st.headers p), .error .networkError)) ∧
    (∀ h rest' resp, rest = h :: rest' →
      net (alt_request st.headers p h) = .success resp →
      try_with_alt_routing net dnsEnv st p =
        (store_alternative_route st ("https://" ++ h),
         (pre ++ [h]).map (alt_request st.headers p),
         if response_truthy resp then .ok resp else .error .networkError)) := by
  constructor
  · intro hrest
    subst hrest
    unfold try_with_alt_routing
    dsimp only
    rw [hroutes, List.append_nil]
    exact alt_loop_all_fail net _ st pre hpre
  · intro h rest' resp hrest hnet
    subst hrest
    unfold try_with_alt_routing
    dsimp only
    rw [hroutes]
    exact alt_loop_first_success net _ st pre h resp rest' hpre hnet

/-- Witness for the amended C4 at the concrete counterexample input. -/
theorem claim_C4_first_nonraising_host_witness :
    try_with_alt_routing netBad dnsEnvOne stOn pSample =
      (store_alternative_route stOn "https://h1",
       [alt_request stOn.headers pSample "h1"],
       .error .networkError) := by
  have h := (claim_C4_first_nonraising_host netBad dnsEnvOne stOn pSample [] ["h1"] rfl
    (fun r hr => absurd hr (List.not_mem_nil r))).2 "h1" [] respBad rfl rfl
  rw [show response_truthy respBad = false from rfl] at h
  rw [show ("https://" ++ "h1" : String) = "https://h1" from rfl] at h
  simpa using h

/-- C9: for an `api_request` whose transport yields a response with a
body that is not valid JSON, a 200 status returns the raw response
object (no `ProtonAPIError`), while a non-200 status raises
`ProtonAPIError` carrying the status code, reason and headers. -/
theorem claim_C9_nonjson_body (net : Net) (dnsEnv : DnsEnv) (st : SessionState) (b : Bool)
    (endpoint : String) (jsondata : Option JVal) (addh : Option (List (String × JVal)))
    (method : Option String) (params : Option (List (String × String)))
    (mm : String) (r : HttpResponse)
    (hallow : st.allow_alternative_routes = some b)
    (hm : resolve_method method jsondata = some mm)
    (hnet : ∀ req, net req = .success r)
    (hbody : r.body = none) :
    ((api_request net dnsEnv st endpoint jsondata addh method params).1 = st) ∧
    ((api_request net dnsEnv st endpoint jsondata addh method params).2.1.length = 1) ∧
    (r.status_code = 200 →
      (api_request net dnsEnv st endpoint jsondata addh method params).2.2 =
        .ok (.raw r)) ∧
    (r.status_code ≠ 200 →
      (api_request net dnsEnv st endpoint jsondata addh method params).2.2 =
        .error (.protonAPIError (.obj
          [("Code", .num r.status_code), ("Error", .str r.reason),
           ("Headers", responseHeadersJ r.resp_headers)]))) := by
  have hrun : api_request net dnsEnv st endpoint jsondata addh method params =
      ((handle_response st (some r)).1,
       [mk_final st.headers
         ⟨mm, if try_original_url b st.force_skip_alternative_routing st.alt_route
              then st.api_url else get_alternative_url st.alt_route,
          endpoint, addh, jsondata, params,
          try_original_url b st.force_skip_alternative_routing st.alt_route⟩],
       (handle_response st (some r)).2) := by
    unfold api_request
    rw [hallow]
    dsimp only
    rw [hm]
    dsimp only
    rw [hnet]
  have hhr : handle_response st (some r) =
      (st, if r.status_code ≠ 200 then
        .error (.protonAPIError (.obj
          [("Code", .num r.status_code), ("Error", .str r.reason),
           ("Headers", responseHeadersJ r.resp_headers)]))
      else .ok (.raw r)) := by
    unfold handle_response
    dsimp only
    rw [hbody]
    dsimp only
    split
    · rfl
    · rfl
  rw [hrun, hhr]
  refine ⟨rfl, rfl, fun h200 => ?_, fun hneq => ?_⟩
  · rw [if_neg (not_not_intro h200)]
  · rw [if_pos hneq]

/-- Witness for C9 at a concrete 200 response with a text body. -/
theorem claim_C9_nonjson_body_witness :
    ((api_request netRaw200 [] stOff "/vpn/config" none none none none).1 = stOff) ∧
    ((api_request netRaw200 [] stOff "/vpn/config" none none none none).2.1.length = 1) ∧
    (resp200raw.status_code = 200 →
      (api_request netRaw200 [] stOff "/vpn/config" none none none none).2.2 =
        .ok (.raw resp200raw)) ∧
    (resp200raw.status_code ≠ 200 →
      (api_request netRaw200 [] stOff "/vpn/config" none none none none).2.2 =
        .error (.protonAPIError (.obj
          [("Code", .num resp200raw.status_code), ("Error", .str resp200raw.reason),
           ("Headers", responseHeadersJ resp200raw.resp_headers)]))) :=
  claim_C9_nonjson_body netRaw200 [] stOff false "/vpn/config" none none none none
    "get" resp200raw rfl rfl (fun _ => rfl) rfl

/-- C2 counterexample: an authenticated session whose DELETE `/auth`
fails with a connection error.  `logout` PROPAGATES the transport error
instead of suppressing it, and the credentials and both auth headers
are left fully in place — contradicting the claim. -/
theorem claim_C2_counterexample :
    (logout netDown [] stAuthd).1 = stAuthd ∧
    (logout netDown [] stAuthd).2.2 = .error .newConnectionError ∧
    stAuthd.session_data ≠ [] ∧
    hGet stAuthd.headers "Authorization" = some (.str "Bearer a1") ∧
    hGet stAuthd.headers "x-pm-uid" = some (.str "u1") :=
  ⟨rfl, rfl, by simp [stAuthd], rfl, rfl⟩

/-- C2 amended: when the DELETE `/auth` of `logout` fails with a
transport error, the error propagates to the caller and nothing is
cleared: the session data and the `Authorization` and `x-pm-uid`
headers are exactly those the failed request left behind, which are the
ones the session already had. -/
theorem claim_C2_logout_failure_propagates (net : Net) (dnsEnv : DnsEnv)
    (st st' : SessionState) (tr : List Request) (e : ApiError)
    (hsd : st.session_data ≠ [])
    (happ : api_request net dnsEnv st "/auth" none none (some "DELETE") none =
      (st', tr, .error e)) :
    logout net dnsEnv st = (st', tr, .error e) ∧
    st'.session_data = st.session_data ∧
    hGet st'.headers "Authorization" = hGet st.headers "Authorization" ∧
    hGet st'.headers "x-pm-uid" = hGet st.headers "x-pm-uid" := by
  have hpres := api_request_preserves net dnsEnv st "/auth" none none (some "DELETE") none
  rw [happ] at hpres
  refine ⟨?_, hpres.2.1, hpres.2.2 "Authorization" (by decide) (by decide),
    hpres.2.2 "x-pm-uid" (by decide) (by decide)⟩
  unfold logout
  rw [if_neg (fun hc => hsd (List.isEmpty_iff.mp hc)), happ]

/-- Witness for the amended C2 at the concrete counterexample input. -/
theorem claim_C2_logout_failure_propagates_witness :
    logout netDown [] stAuthd =
      (stAuthd, (api_request netDown [] stAuthd "/auth" none none (some "DELETE") none).2.1,
       .error .newConnectionError) ∧
    stAuthd.session_data = stAuthd.session_data ∧
    hGet stAuthd.headers "Authorization" = hGet stAuthd.headers "Authorization" ∧
    hGet stAuthd.headers "x-pm-uid" = hGet stAuthd.headers "x-pm-uid" :=
  claim_C2_logout_failure_propagates netDown [] stAuthd stAuthd _ .newConnectionError
    (by simp [stAuthd]) rfl

/-- C5: modulus verification returns the base64-decoded plaintext
exactly when the signature is valid AND the signer fingerprint,
lowercased, equals the hard-coded fingerprint (which is itself
lowercase hex, so this is a case-insensitive hex match); any other
outcome — bad signature, wrong signer, malformed armor (which the gpg
layer reports as an invalid signature) — raises the invalid-modulus
error. -/
theorem claim_C5_verify_modulus (c : Crypto) (blob : String) (d : String)
    (hdec : c.b64decode (py_strip (c.gpg_decrypt blob).data) = some d) :
    (verify_modulus c blob = .ok d ↔
      ((c.gpg_decrypt blob).valid = true ∧
       py_lower (c.gpg_decrypt blob).fingerprint = SRP_MODULUS_KEY_FINGERPRINT)) ∧
    (¬((c.gpg_decrypt blob).valid = true ∧
       py_lower (c.gpg_decrypt blob).fingerprint = SRP_MODULUS_KEY_FINGERPRINT) →
      verify_modulus c blob = .error .invalidModulus) ∧
    py_lower SRP_MODULUS_KEY_FINGERPRINT = SRP_MODULUS_KEY_FINGERPRINT := by
  have hlower : py_lower SRP_MODULUS_KEY_FINGERPRINT = SRP_MODULUS_KEY_FINGERPRINT := rfl
  by_cases hcond : ((c.gpg_decrypt blob).valid &&
      (py_lower (c.gpg_decrypt blob).fingerprint == SRP_MODULUS_KEY_FINGERPRINT)) = true
  · have hprop : (c.gpg_decrypt blob).valid = true ∧
        py_lower (c.gpg_decrypt blob).fingerprint = SRP_MODULUS_KEY_FINGERPRINT := by
      simpa [Bool.and_eq_true, beq_iff_eq] using hcond
    have heval : verify_modulus c blob = .ok d := by
      unfold verify_modulus
      dsimp only
      rw [hcond, if_neg (by simp), hdec]
    exact ⟨⟨fun _ => hprop, fun _ => heval⟩, fun hcon => absurd hprop hcon, hlower⟩
  · have hprop : ¬((c.gpg_decrypt blob).valid = true ∧
        py_lower (c.gpg_decrypt blob).fingerprint = SRP_MODULUS_KEY_FINGERPRINT) := by
      simpa [Bool.and_eq_true, beq_iff_eq] using hcond
    have hfalse := Bool.eq_false_iff.mpr hcond
    have heval : verify_modulus c blob = .error .invalidModulus := by
      unfold verify_modulus
      dsimp only
      rw [hfalse]
      rfl
    refine ⟨⟨fun hok => ?_, fun hp => absurd hp hprop⟩, fun _ => heval, hlower⟩
    rw [heval] at hok
    exact absurd hok (by simp)

/-- Witness for C5: an uppercase signer fingerprint still matches
case-insensitively, and the plaintext is returned decoded. -/
theorem claim_C5_verify_modulus_witness :
    (verify_modulus cryptoId "blob" = .ok "bW9k" ↔
      ((cryptoId.gpg_decrypt "blob").valid = true ∧
       py_lower (cryptoId.gpg_decrypt "blob").fingerprint = SRP_MODULUS_KEY_FINGERPRINT)) ∧
    (¬((cryptoId.gpg_decrypt "blob").valid = true ∧
       py_lower (cryptoId.gpg_decrypt "blob").fingerprint = SRP_MODULUS_KEY_FINGERPRINT) →
      verify_modulus cryptoId "blob" = .error .invalidModulus) ∧
    py_lower SRP_MODULUS_KEY_FINGERPRINT = SRP_MODULUS_KEY_FINGERPRINT :=
  claim_C5_verify_modulus cryptoId "blob" "bW9k" rfl

/-- C6: when the `/auth` response is a JSON envelope without a
`ServerProof` field, `authenticate` on a pre-auth session (no stored
credentials) fails with the invalid-password error, stores no UID,
AccessToken or RefreshToken, and leaves the `Authorization` and
`x-pm-uid` headers exactly as they were. -/
theorem claim_C6_missing_serverproof (c : Crypto) (net : Net) (dnsEnv : DnsEnv)
    (st st2 st3 : SessionState) (tr2 tr3 : List Request) (iret : ApiReturn)
    (usr : SrpUser) (payload2 : JVal) (afs : List (String × JVal))
    (username password : String)
    (hsd : st.session_data = [])
    (h1 : api_request net dnsEnv st "/auth/info"
      (some (auth_payload username st.clientsecret)) none none none = (st2, tr2, .ok iret))
    (hsrp : srp_phase c username st2.clientsecret password iret = .ok (usr, payload2))
    (h2 : api_request net dnsEnv st2 "/auth" (some payload2) none none none =
      (st3, tr3, .ok (.json (.obj afs))))
    (hnoSP : afs.any (fun p => p.1 = "ServerProof") = false) :
    authenticate c net dnsEnv st username password =
      (st3, tr2 ++ tr3, .error .invalidPassword) ∧
    st3.session_data = [] ∧
    hGet st3.headers "Authorization" = hGet st.headers "Authorization" ∧
    hGet st3.headers "x-pm-uid" = hGet st.headers "x-pm-uid" := by
  have p1 := api_request_preserves net dnsEnv st "/auth/info"
    (some (auth_payload username st.clientsecret)) none none none
  rw [h1] at p1
  have p2 := api_request_preserves net dnsEnv st2 "/auth" (some payload2) none none none
  rw [h2] at p2
  have hlog : logout net dnsEnv st = (st, [], .ok ()) := by
    unfold logout
    rw [hsd]
    rfl
  refine ⟨?_, by rw [p2.2.1, p1.2.1, hsd],
    (p2.2.2 "Authorization" (by decide) (by decide)).trans
      (p1.2.2 "Authorization" (by decide) (by decide)),
    (p2.2.2 "x-pm-uid" (by decide) (by decide)).trans
      (p1.2.2 "x-pm-uid" (by decide) (by decide))⟩
  unfold authenticate
  rw [hlog]
  dsimp only
  rw [h1]
  dsimp only
  rw [hsrp]
  dsimp only
  rw [h2]
  dsimp only
  unfold finish_auth
  dsimp only
  unfold api_return_has_key
  dsimp only
  rw [hnoSP]
  rfl

/-- Witness for C6 at concrete fixtures: a pre-auth session, a good
`/auth/info` envelope, and an `/auth` envelope lacking `ServerProof`. -/
theorem claim_C6_missing_serverproof_witness :
    authenticate cryptoId netAuth [] stOff "alice" "pw" =
      (stOff,
       (api_request netAuth [] stOff "/auth/info"
         (some (auth_payload "alice" stOff.clientsecret)) none none none).2.1 ++
       (api_request netAuth [] stOff "/auth" (some payloadC6) none none none).2.1,
       .error .invalidPassword) ∧
    stOff.session_data = [] ∧
    hGet stOff.headers "Authorization" = hGet stOff.headers "Authorization" ∧
    hGet stOff.headers "x-pm-uid" = hGet stOff.headers "x-pm-uid" :=
  claim_C6_missing_serverproof cryptoId netAuth [] stOff stOff stOff _ _
    (.json infoBody) (cryptoId.mkUser "pw" "bW9k") payloadC6 [("Code", .num 1000)]
    "alice" "pw" rfl rfl rfl rfl rfl

/-- C10: once the alternative-routing policy has been set through the
setter with any value, the policy is a boolean from then on: after any
sequence of further session operations it is still set, and
`api_request` can never again fail with the policy-not-configured
error on that session. -/
theorem claim_C10_policy_set_is_permanent (st : SessionState) (v : JVal) (ops : List SOp) :
    ((ops.foldl run_op (set_enable_alternative_routing st v)).allow_alternative_routes).isSome
      = true ∧
    ∀ (net : Net) (dnsEnv : DnsEnv) (endpoint : String) (jsondata : Option JVal)
      (addh : Option (List (String × JVal))) (method : Option String)
      (params : Option (List (String × String))),
      (api_request net dnsEnv (ops.foldl run_op (set_enable_alternative_routing st v))
        endpoint jsondata addh method params).2.2 ≠
        Except.error ApiError.policyNotConfigured := by
  have hs := foldl_run_op_isSome ops (set_enable_alternative_routing st v) (set_alt_isSome st v)
  refine ⟨hs, ?_⟩
  intro net dnsEnv endpoint jsondata addh method params
  obtain ⟨b, hb⟩ := Option.isSome_iff_exists.mp hs
  exact api_request_no_policy net dnsEnv _ endpoint jsondata addh method params b hb

/-- C7: for every session whose headers satisfy the data-model invariant
(constructor headers, plus the auth headers exactly when credentials are
present), loading its dump succeeds, and the loaded session has
identical headers (hence issues identical standard headers, including
`x-pm-uid` and `Authorization` when credentials were present) and
identical `Scope`, `UID` and cookies. -/
theorem claim_C7_dump_load_roundtrip (st : SessionState) (tls : Bool)
    (h : wellFormedHeaders st) :
    (∃ st', Session.load (Session.dump st) tls = .ok st') ∧
    (∀ st', Session.load (Session.dump st) tls = .ok st' →
      st'.headers = st.headers ∧ Session.UID st' = Session.UID st ∧
      Session.Scope st' = Session.Scope st ∧ st'.cookies = st.cookies) := by
  have hu1 : Session.UID (loaded_base (Session.dump st) tls) = Session.UID st := rfl
  have ha1 : Session.AccessToken (loaded_base (Session.dump st) tls) =
    Session.AccessToken st := rfl
  constructor
  · unfold Session.load
    dsimp only
    rw [hu1]
    rcases h with ⟨hu, hh⟩ | ⟨u, a, hu, ha, hh⟩
    · rw [hu]
      exact ⟨_, rfl⟩
    · rw [hu]
      dsimp only
      rw [ha1, ha]
      exact ⟨_, rfl⟩
  · intro st' hload
    unfold Session.load at hload
    dsimp only at hload
    rw [hu1] at hload
    rcases h with ⟨hu, hh⟩ | ⟨u, a, hu, ha, hh⟩
    · rw [hu] at hload
      dsimp only at hload
      injection hload with hst
      subst hst
      exact ⟨hh.symm, rfl, rfl, rfl⟩
    · rw [hu] at hload
      dsimp only at hload
      rw [ha1, ha] at hload
      dsimp only at hload
      injection hload with hst
      subst hst
      exact ⟨hh.symm, rfl, rfl, rfl⟩

/-- Witness for C7 at the concrete authenticated sample session. -/
theorem claim_C7_dump_load_roundtrip_witness :
    (∃ st', Session.load (Session.dump stAuthd) true = .ok st') ∧
    (∀ st', Session.load (Session.dump stAuthd) true = .ok st' →
      st'.headers = stAuthd.headers ∧ Session.UID st' = Session.UID stAuthd ∧
      Session.Scope st' = Session.Scope stAuthd ∧ st'.cookies = stAuthd.cookies) :=
  claim_C7_dump_load_roundtrip stAuthd true
    (Or.inr ⟨.str "u1", "a1", rfl, rfl, rfl⟩)

/-- C8: after a successful refresh, the stored `AccessToken` and
`RefreshToken` are overwritten with the response values, the
`Authorization` header is rewritten to carry the new access token, and
every request issued by a subsequent `api_request` (with no overriding
per-call headers) carries `Authorization: Bearer <new token>`. -/
theorem claim_C8_refresh_rotates_token (net : Net) (dnsEnv : DnsEnv)
    (st st1 : SessionState) (tr : List Request) (ret : ApiReturn) (a2 r2 : String)
    (happ : api_request net dnsEnv st "/auth/refresh" (some (refresh_payload st))
      none none none = (st1, tr, .ok ret))
    (hak : api_return_item ret "AccessToken" = .ok (.str a2))
    (hrk : api_return_item ret "RefreshToken" = .ok (.str r2)) :
    ∃ st2, refresh net dnsEnv st = (st2, tr, .ok ()) ∧
      Session.AccessToken st2 = some (.str a2) ∧
      Session.RefreshToken st2 = some (.str r2) ∧
      hGet st2.headers "Authorization" = some (.str ("Bearer " ++ a2)) ∧
      ∀ (net' : Net) (dnsEnv' : DnsEnv) (endpoint : String) (jsondata : Option JVal)
        (method : Option String) (params : Option (List (String × String)))
        (req : Request),
        req ∈ (api_request net' dnsEnv' st2 endpoint jsondata none method params).2.1 →
        hGet req.headers "Authorization" = some (.str ("Bearer " ++ a2)) := by
  refine ⟨_, refresh_eq_of net dnsEnv st st1 tr ret a2 r2 happ hak hrk, ?_, ?_, ?_, ?_⟩
  · unfold Session.AccessToken sd_get
    dsimp only
    rw [hGet_hset_ne _ _ _ _ (by decide), hGet_hset_self]
  · unfold Session.RefreshToken sd_get
    dsimp only
    rw [hGet_hset_self]
  · dsimp only
    rw [hGet_hset_self]
  · intro net' dnsEnv' endpoint jsondata method params req hreq
    refine api_request_trace_auth net' dnsEnv' _ endpoint jsondata method params _ ?_ req hreq
    dsimp only
    rw [hGet_hset_self]

/-- Witness for C8 at the concrete authenticated session and refresh
fixture. -/
theorem claim_C8_refresh_rotates_token_witness :
    ∃ st2, refresh netRefresh [] stAuthd =
        (st2,
         (api_request netRefresh [] stAuthd "/auth/refresh"
           (some (refresh_payload stAuthd)) none none none).2.1, .ok ()) ∧
      Session.AccessToken st2 = some (.str "a2") ∧
      Session.RefreshToken st2 = some (.str "r2") ∧
      hGet st2.headers "Authorization" = some (.str ("Bearer " ++ "a2")) ∧
      ∀ (net' : Net) (dnsEnv' : DnsEnv) (endpoint : String) (jsondata : Option JVal)
        (method : Option String) (params : Option (List (String × String)))
        (req : Request),
        req ∈ (api_request net' dnsEnv' st2 endpoint jsondata none method params).2.1 →
        hGet req.headers "Authorization" = some (.str ("Bearer " ++ "a2")) :=
  claim_C8_refresh_rotates_token netRefresh [] stAuthd stAuthd _
    (.json refreshBody) "a2" "r2" rfl rfl rfl

end Claims

end Proton
